import Mathlib

/-!
# Vineyard runtime configuration resolver

A shallow embedding of `pkg/ddc/vineyard/transform.go`: the functions that turn a
`VineyardRuntime` into the `Vineyard` helm value, and theorems about them.

Conventions of the embedding:

* a Go `map[string]V` is an optional association list (`none` is the nil map), read
  by first match, written by dropping the key and putting the new entry in front;
* a Go slice is a `List` (the nil slice is `[]`);
* a Go `(x, err)` result pair is a Lean pair whose error is an `Option Error`;
* a Go pointer that may be nil is an `Option`;
* a run-time panic is the `Except.error` of the `Go` monad;
* a method that writes through `value *Vineyard` takes the value and returns the new one;
* constants, types and helpers that are declared in other files of the package are
  fields of `Consts` and `VineyardEngine`.
-/

set_option linter.dupNamespace false
set_option linter.unusedVariables false

namespace Fluid

/-! ## Go values -/

/-- Go `error` values, identified by their message. -/
abbrev Error := String

/-- The run-time panics the code of this file can raise. -/
inductive Panic where
  | indexOutOfRange
  | nilMapWrite
  deriving DecidableEq, Repr

/-- Executions that either panic or return. -/
abbrev Go (α : Type) := Except Panic α

/-- A Go `map[string]V`: `none` is the nil map. -/
abbrev GoMap (V : Type) := Option (List (String × V))

namespace GoMap

/-- The entries of a map, none for the nil map. -/
def entries {V : Type} (m : GoMap V) : List (String × V) :=
  match m with
  | none => []
  | some l => l

/-- Go `len(m)`. -/
def len {V : Type} (m : GoMap V) : Nat := (entries m).length

/-- Go `v, ok := m[k]`: the value stored under `k`, if any. -/
def get {V : Type} (m : GoMap V) (k : String) : Option V :=
  ((entries m).find? (fun kv => kv.1 == k)).map Prod.snd

/-- Go `m[k]` for an int-valued map: the zero value when the key is absent. -/
def getInt (m : GoMap Int) (k : String) : Int := (get m k).getD 0

/-- Go `m[k] = v` on a non-nil map. -/
def put {V : Type} (l : List (String × V)) (k : String) (v : V) : List (String × V) :=
  (k, v) :: l.filter (fun kv => !(kv.1 == k))

/-- Go `m[k] = v`: panics on the nil map. -/
def set {V : Type} (m : GoMap V) (k : String) (v : V) : Go (GoMap V) :=
  match m with
  | none => .error Panic.nilMapWrite
  | some l => .ok (some (put l k v))

/-- Go `for key, value := range src { dst[key] = value }` on a non-nil `dst`. -/
def putAll {V : Type} (dst : List (String × V)) (src : GoMap V) : List (String × V) :=
  (entries src).foldl (fun acc kv => put acc kv.1 kv.2) dst

/-- A well-formed map stores every key once. -/
def WF {V : Type} (m : GoMap V) : Prop := ((entries m).map Prod.fst).Nodup

end GoMap

/-! ## API types (`api/v1alpha1`) -/

namespace datav1alpha1

/-- The `resource.Quantity` payload of a quota, kept as its canonical text. -/
abbrev Quantity := String

/-- The `VolumeSource` payload of a level, kept as its text. -/
abbrev VolumeSource := String

/-- The `NetworkMode` string enumeration. -/
abbrev NetworkMode := String

/-- One tier of the tiered store as the user declares it. -/
structure Level where
  MediumType : String := ""
  VolumeType : String := ""
  VolumeSource : VolumeSource := ""
  Path : String := ""
  Quota : Option Quantity := none
  QuotaList : String := ""
  High : String := ""
  Low : String := ""
  deriving DecidableEq, Repr

/-- The tiered store of a runtime spec. -/
structure TieredStore where
  Levels : List Level := []
  deriving DecidableEq, Repr

/-- Labels and annotations to put on pods. -/
structure PodMetadata where
  Labels : GoMap String := none
  Annotations : GoMap String := none
  deriving DecidableEq, Repr

/-- The spec of the master and of the worker component. -/
structure VineyardCompTemplateSpec where
  Replicas : Int := 0
  Image : String := ""
  ImageTag : String := ""
  ImagePullPolicy : String := ""
  Env : GoMap String := none
  Options : GoMap String := none
  NodeSelector : GoMap String := none
  NetworkMode : NetworkMode := ""
  Ports : GoMap Int := none
  PodMetadata : PodMetadata := {}
  deriving DecidableEq, Repr

/-- The spec of the fuse component: the fields the file reads. It declares no node
selector, so a user has no fuse node-selector entry to supply. -/
structure VineyardSockSpec where
  Image : String := ""
  ImageTag : String := ""
  ImagePullPolicy : String := ""
  Env : GoMap String := none
  Options : GoMap String := none
  CleanPolicy : String := ""
  NetworkMode : NetworkMode := ""
  PodMetadata : PodMetadata := {}
  deriving DecidableEq, Repr

/-- The `Spec` of a `VineyardRuntime`. -/
structure VineyardRuntimeSpec where
  Replicas : Int := 0
  Master : VineyardCompTemplateSpec := {}
  Worker : VineyardCompTemplateSpec := {}
  Fuse : VineyardSockSpec := {}
  TieredStore : TieredStore := {}
  PodMetadata : PodMetadata := {}
  deriving DecidableEq, Repr

/-- The `VineyardRuntime` object. -/
structure VineyardRuntime where
  Name : String := ""
  Namespace : String := ""
  Annotations : GoMap String := none
  Spec : VineyardRuntimeSpec := {}
  deriving DecidableEq, Repr

/-- The owner dataset of a runtime; this file only passes it along. -/
structure Dataset where
  Name : String := ""
  deriving DecidableEq, Repr

end datav1alpha1

/-! ## Helm value types (`pkg/ddc/vineyard/types.go`) -/

/-- One resolved tier. -/
structure Level where
  Level : Int := 0
  MediumType : String := ""
  VolumeType : String := ""
  VolumeSource : datav1alpha1.VolumeSource := ""
  Path : String := ""
  Quota : Option datav1alpha1.Quantity := none
  QuotaList : String := ""
  High : String := ""
  Low : String := ""
  deriving DecidableEq, Repr

/-- The resolved tiered store. -/
structure TieredStore where
  Levels : List Level := []
  deriving DecidableEq, Repr

/-! ## Tiered store -/

/-- The body of the `range` loop of `transformTieredStore`. -/
def appendLevel (tieredStore : TieredStore) (level : datav1alpha1.Level) : TieredStore :=
  if level.MediumType = "MEM" then
    { tieredStore with
      Levels := tieredStore.Levels ++ [{ MediumType := level.MediumType, Quota := level.Quota }] }
  else
    { tieredStore with
      Levels := tieredStore.Levels ++ [{
        Level := 1
        MediumType := level.MediumType
        VolumeType := level.VolumeType
        VolumeSource := level.VolumeSource
        Path := level.Path
        Quota := level.Quota
        QuotaList := level.QuotaList
        High := level.High
        Low := level.Low }] }

/-- The method `transformTieredStore` (lines 278-306). -/
def transformTieredStore (runtime : datav1alpha1.VineyardRuntime) : TieredStore × Option Error :=
  if runtime.Spec.TieredStore.Levels.length = 0 then
    (({} : TieredStore), some "the tieredstore is empty")
  else
    let tieredStore := runtime.Spec.TieredStore.Levels.foldl appendLevel ({} : TieredStore)
    (tieredStore, none)

/-! ## Remaining helm value types -/

/-- Values written by helpers declared in other files (resources, volumes, mounts). -/
abbrev Payload := List String

/-- The resolved master. -/
structure Master where
  Replicas : Int := 0
  Image : String := ""
  ImageTag : String := ""
  ImagePullPolicy : String := ""
  Env : GoMap String := none
  Options : GoMap String := none
  NodeSelector : GoMap String := none
  HostNetwork : Bool := false
  Ports : GoMap Int := none
  Labels : GoMap String := none
  Annotations : GoMap String := none
  Resources : Payload := []
  Volumes : Payload := []
  deriving DecidableEq, Repr

/-- The resolved worker. -/
structure Worker where
  Replicas : Int := 0
  Image : String := ""
  ImageTag : String := ""
  ImagePullPolicy : String := ""
  Env : GoMap String := none
  NodeSelector : GoMap String := none
  HostNetwork : Bool := false
  Ports : GoMap Int := none
  Labels : GoMap String := none
  Annotations : GoMap String := none
  Resources : Payload := []
  Volumes : Payload := []
  deriving DecidableEq, Repr

/-- The resolved fuse. -/
structure Fuse where
  Image : String := ""
  ImageTag : String := ""
  ImagePullPolicy : String := ""
  Env : GoMap String := none
  CleanPolicy : String := ""
  NodeSelector : GoMap String := none
  HostPID : Bool := false
  TargetPath : String := ""
  HostNetwork : Bool := false
  Options : GoMap String := none
  Labels : GoMap String := none
  Annotations : GoMap String := none
  Resources : Payload := []
  deriving DecidableEq, Repr

/-- The helm value `Vineyard`. -/
structure Vineyard where
  Owner : String := ""
  FullnameOverride : String := ""
  OwnerDatasetId : String := ""
  TieredStore : TieredStore := {}
  Master : Master := {}
  Worker : Worker := {}
  Fuse : Fuse := {}
  DisablePrometheus : Bool := false
  deriving DecidableEq, Repr

/-! ## What the file takes from the rest of the repository -/

/-- The constants of `pkg/ddc/vineyard/const.go` that the file reads. -/
structure Consts where
  MasterClientName : String
  MasterClientPort : Int
  MasterPeerName : String
  MasterPeerPort : Int
  WorkerRPCName : String
  WorkerRPCPort : Int
  WorkerExporterName : String
  WorkerExporterPort : Int
  WorkerReserveMemory : String
  DefaultWorkerReserveMemoryValue : String
  WorkerEtcdPrefix : String
  DefaultWorkerEtcdPrefixValue : String
  VineyarddSize : String
  DefaultSize : String
  EtcdEndpoint : String
  EtcdPrefix : String
  DefaultEtcdPrefix : String

/-- The answers of `portallocator.RuntimePortAllocator` in the current state of the pool. -/
structure RuntimePortAllocator where
  GetAvailablePorts : Int → List Int × Option Error

/-- The receiver `e *VineyardEngine` together with every function the file calls
that is declared elsewhere; a helper that writes through `value` is a function
from the value to the new value. -/
structure VineyardEngine where
  /-- The field `e.name`. -/
  name : String
  /-- The field `e.namespace`. -/
  namespace_ : String
  /-- The answer of `e.runtimeInfo.GetOwnerDatasetUID()`. -/
  GetOwnerDatasetUID : String
  /-- The answer of `e.getMountPoint()`. -/
  getMountPoint : String
  /-- The answer of `utils.GetDataset(e.Client, e.name, e.namespace)`. -/
  GetDataset : Option datav1alpha1.Dataset × Option Error
  /-- The function `utils.GetDatasetId(namespace, name, uid)`. -/
  GetDatasetId : String → String → String → String
  /-- The function `utils.GetFuseLabelName(namespace, name, uid)`. -/
  GetFuseLabelName : String → String → String → String
  /-- The function `transformer.GenerateOwnerReferenceFromObject`. -/
  GenerateOwnerReferenceFromObject : datav1alpha1.VineyardRuntime → String
  /-- The function `common.HostPIDEnabled`. -/
  HostPIDEnabled : GoMap String → Bool
  /-- The function `datav1alpha1.IsHostNetwork`. -/
  IsHostNetwork : datav1alpha1.NetworkMode → Bool
  /-- The method `e.parseMasterImage(image, tag, imagePullPolicy)`. -/
  parseMasterImage : String → String → String → String × String × String
  /-- The method `e.parseWorkerImage(image, tag, imagePullPolicy)`. -/
  parseWorkerImage : String → String → String → String × String × String
  /-- The method `e.parseFuseImage(image, tag, imagePullPolicy)`. -/
  parseFuseImage : String → String → String → String × String × String
  /-- The method `e.transformResourcesForMaster(runtime, value)`. -/
  transformResourcesForMaster : datav1alpha1.VineyardRuntime → Vineyard → Vineyard
  /-- The method `e.transformResourcesForWorker(runtime, value)`. -/
  transformResourcesForWorker :
    datav1alpha1.VineyardRuntime → Vineyard → Vineyard × Option Error
  /-- The method `e.transformResourcesForFuse(runtime, value)`. -/
  transformResourcesForFuse : datav1alpha1.VineyardRuntime → Vineyard → Vineyard
  /-- The method `e.transformMasterVolumes(runtime, value)`. -/
  transformMasterVolumes : datav1alpha1.VineyardRuntime → Vineyard → Vineyard × Option Error
  /-- The method `e.transformWorkerVolumes(runtime, value)`. -/
  transformWorkerVolumes : datav1alpha1.VineyardRuntime → Vineyard → Vineyard × Option Error
  /-- The answer of `portallocator.GetRuntimePortAllocator()`: the allocator, or the
  error when the pool was never set up. -/
  GetRuntimePortAllocator : Except Error RuntimePortAllocator

/-- Modelled from the spec: `utils.UnionMapsWithOverride`, declared in `pkg/utils`;
a new mapping with every key of the base, then overwritten by every key of the
override, nil inputs behaving as empty mappings. -/
def UnionMapsWithOverride (map1 map2 : GoMap String) : GoMap String :=
  some (GoMap.putAll (GoMap.putAll [] map1) map2)

/-- The calls a run makes, in order. -/
inductive Call where
  | GetDataset
  | transformTieredStore
  | transformMasters
  | transformWorkers
  | transformFuse
  | transformPodMetadata
  | allocatePorts
  | GetRuntimePortAllocator
  | GetAvailablePorts (portNum : Int)
  deriving DecidableEq, Repr

/-- What `allocatePorts` leaves behind: the value it wrote through, its error, its calls. -/
structure AllocResult where
  value : Vineyard
  err : Option Error
  calls : List Call
  deriving DecidableEq, Repr

/-- What `transform` returns (`value *Vineyard, err error`) and the calls it made. -/
structure TransformResult where
  value : Option Vineyard
  err : Option Error
  calls : List Call
  deriving DecidableEq, Repr

/-- Go `s[i]` on a slice: panics when the index is out of range. -/
def sliceAt (s : List Int) (i : Nat) : Go Int :=
  match s[i]? with
  | some v => .ok v
  | none => .error Panic.indexOutOfRange

section Methods

variable (c : Consts) (e : VineyardEngine)

/-- The method `transformMasterSelector` (lines 201-207). -/
def transformMasterSelector (runtime : datav1alpha1.VineyardRuntime) : GoMap String :=
  let properties : GoMap String := some []
  if runtime.Spec.Master.NodeSelector ≠ none then runtime.Spec.Master.NodeSelector
  else properties

/-- The method `transformMasterPorts` (lines 209-220). -/
def transformMasterPorts (runtime : datav1alpha1.VineyardRuntime) : GoMap Int :=
  let ports := [(c.MasterClientName, c.MasterClientPort), (c.MasterPeerName, c.MasterPeerPort)]
  if GoMap.len runtime.Spec.Master.Ports > 0 then
    some (GoMap.putAll ports runtime.Spec.Master.Ports)
  else some ports

/-- The method `transformMasterOptions` (lines 222-233). -/
def transformMasterOptions (runtime : datav1alpha1.VineyardRuntime) : GoMap String :=
  let options := [(c.WorkerReserveMemory, c.DefaultWorkerReserveMemoryValue),
    (c.WorkerEtcdPrefix, c.DefaultWorkerEtcdPrefixValue)]
  if GoMap.len runtime.Spec.Master.Options > 0 then
    some (GoMap.putAll options runtime.Spec.Master.Options)
  else some options

/-- The method `transformWorkerOptions` (lines 235-242). -/
def transformWorkerOptions (runtime : datav1alpha1.VineyardRuntime) : GoMap String :=
  let options : GoMap String := some []
  if GoMap.len runtime.Spec.Worker.Options > 0 then runtime.Spec.Worker.Options
  else options

/-- The text `fmt.Sprintf("http://%s-master-0.%s-master.%s:%d", name, name, namespace, port)`. -/
def etcdEndpoint (name ns : String) (port : Int) : String :=
  "http://" ++ name ++ "-master-0." ++ name ++ "-master." ++ ns ++ ":" ++ toString port

/-- The method `transformFuseOptions` (lines 244-257). -/
def transformFuseOptions (runtime : datav1alpha1.VineyardRuntime) (value : Vineyard) :
    GoMap String :=
  let options := [(c.VineyarddSize, c.DefaultSize),
    (c.EtcdEndpoint, etcdEndpoint value.FullnameOverride e.namespace_
      (GoMap.getInt value.Master.Ports c.MasterClientName)),
    (c.EtcdPrefix, c.DefaultEtcdPrefix)]
  if GoMap.len runtime.Spec.Fuse.Options > 0 then
    some (GoMap.putAll options runtime.Spec.Fuse.Options)
  else some options

/-- The method `transformWorkerPorts` (lines 259-270). -/
def transformWorkerPorts (runtime : datav1alpha1.VineyardRuntime) : GoMap Int :=
  let ports := [(c.WorkerRPCName, c.WorkerRPCPort), (c.WorkerExporterName, c.WorkerExporterPort)]
  if GoMap.len runtime.Spec.Worker.Ports > 0 then
    some (GoMap.putAll ports runtime.Spec.Worker.Ports)
  else some ports

/-- The method `transformFuseNodeSelector` (lines 272-276). -/
def transformFuseNodeSelector (runtime : datav1alpha1.VineyardRuntime) : GoMap String :=
  some (GoMap.put []
    (e.GetFuseLabelName runtime.Namespace runtime.Name e.GetOwnerDatasetUID) "true")

/-- The method `transformMasters` (lines 79-127); the error it returns is the
named result `err`, last assigned by the volume transform. -/
def transformMasters (runtime : datav1alpha1.VineyardRuntime)
    (dataset : Option datav1alpha1.Dataset) (value : Vineyard) : Vineyard × Option Error :=
  let value := { value with Master := {} }
  let value :=
    if runtime.Spec.Master.Replicas = 0 then
      { value with Master := { value.Master with Replicas := 1 } }
    else
      { value with Master := { value.Master with Replicas := runtime.Spec.Master.Replicas } }
  let image := runtime.Spec.Master.Image
  let imageTag := runtime.Spec.Master.ImageTag
  let imagePullPolicy := runtime.Spec.Master.ImagePullPolicy
  let parsed := e.parseMasterImage image imageTag imagePullPolicy
  let value := { value with Master := { value.Master with
    Image := parsed.1, ImageTag := parsed.2.1, ImagePullPolicy := parsed.2.2 } }
  let value :=
    if GoMap.len runtime.Spec.Master.Env > 0 then
      { value with Master := { value.Master with Env := runtime.Spec.Master.Env } }
    else
      { value with Master := { value.Master with Env := some [] } }
  let options := transformMasterOptions c runtime
  let value :=
    if GoMap.len options ≠ 0 then
      { value with Master := { value.Master with Options := options } }
    else value
  let nodeSelector := transformMasterSelector runtime
  let value :=
    if GoMap.len nodeSelector ≠ 0 then
      { value with Master := { value.Master with NodeSelector := nodeSelector } }
    else value
  let value := e.transformResourcesForMaster runtime value
  let value := { value with Master := { value.Master with
    HostNetwork := e.IsHostNetwork runtime.Spec.Worker.NetworkMode } }
  let ports := transformMasterPorts c runtime
  let value :=
    if GoMap.len ports ≠ 0 then
      { value with Master := { value.Master with Ports := ports } }
    else value
  let r := e.transformMasterVolumes runtime value
  (r.1, r.2)

/-- The method `transformWorkers` (lines 129-170); past the resources step the
error it returns is the named result `err`, last assigned by the volume transform. -/
def transformWorkers (runtime : datav1alpha1.VineyardRuntime) (value : Vineyard) :
    Vineyard × Option Error :=
  let value := { value with Worker := {} }
  let value := { value with Worker := { value.Worker with Replicas := runtime.Spec.Replicas } }
  let image := runtime.Spec.Worker.Image
  let imageTag := runtime.Spec.Worker.ImageTag
  let imagePullPolicy := runtime.Spec.Worker.ImagePullPolicy
  let parsed := e.parseWorkerImage image imageTag imagePullPolicy
  let value := { value with Worker := { value.Worker with
    Image := parsed.1, ImageTag := parsed.2.1, ImagePullPolicy := parsed.2.2 } }
  let value :=
    if GoMap.len runtime.Spec.Worker.Env > 0 then
      { value with Worker := { value.Worker with Env := runtime.Spec.Worker.Env } }
    else
      { value with Worker := { value.Worker with Env := some [] } }
  let value :=
    if GoMap.len runtime.Spec.Worker.NodeSelector > 0 then
      { value with Worker := { value.Worker with
        NodeSelector := runtime.Spec.Worker.NodeSelector } }
    else
      { value with Worker := { value.Worker with NodeSelector := some [] } }
  let res := e.transformResourcesForWorker runtime value
  match res.2 with
  | some err => (res.1, some err)
  | none =>
    let value := res.1
    let value := { value with Worker := { value.Worker with
      HostNetwork := e.IsHostNetwork runtime.Spec.Worker.NetworkMode } }
    let ports := transformWorkerPorts c runtime
    let value :=
      if GoMap.len ports ≠ 0 then
        { value with Worker := { value.Worker with Ports := ports } }
      else value
    let r := e.transformWorkerVolumes runtime value
    (r.1, r.2)

/-- The method `transformFuse` (lines 172-199). -/
def transformFuse (runtime : datav1alpha1.VineyardRuntime) (value : Vineyard) : Vineyard :=
  let value := { value with Fuse := {} }
  let image := runtime.Spec.Fuse.Image
  let imageTag := runtime.Spec.Fuse.ImageTag
  let imagePullPolicy := runtime.Spec.Fuse.ImagePullPolicy
  let parsed := e.parseFuseImage image imageTag imagePullPolicy
  let value := { value with Fuse := { value.Fuse with
    Image := parsed.1, ImageTag := parsed.2.1, ImagePullPolicy := parsed.2.2 } }
  let value :=
    if GoMap.len runtime.Spec.Fuse.Env > 0 then
      { value with Fuse := { value.Fuse with Env := runtime.Spec.Fuse.Env } }
    else
      { value with Fuse := { value.Fuse with Env := some [] } }
  let value := { value with Fuse := { value.Fuse with
    CleanPolicy := runtime.Spec.Fuse.CleanPolicy } }
  let value := { value with Fuse := { value.Fuse with
    NodeSelector := transformFuseNodeSelector e runtime } }
  let value := { value with Fuse := { value.Fuse with
    HostPID := e.HostPIDEnabled runtime.Annotations } }
  let value := { value with Fuse := { value.Fuse with TargetPath := e.getMountPoint } }
  let value := { value with Fuse := { value.Fuse with
    HostNetwork := e.IsHostNetwork runtime.Spec.Fuse.NetworkMode } }
  let options := transformFuseOptions c e runtime value
  let value :=
    if GoMap.len options ≠ 0 then
      { value with Fuse := { value.Fuse with Options := options } }
    else value
  e.transformResourcesForFuse runtime value

/-- The method `transformPodMetadata` (lines 345-357). -/
def transformPodMetadata (runtime : datav1alpha1.VineyardRuntime) (value : Vineyard) : Vineyard :=
  let commonLabels := UnionMapsWithOverride (some []) runtime.Spec.PodMetadata.Labels
  let value := { value with Master := { value.Master with
    Labels := UnionMapsWithOverride commonLabels runtime.Spec.Master.PodMetadata.Labels } }
  let value := { value with Worker := { value.Worker with
    Labels := UnionMapsWithOverride commonLabels runtime.Spec.Worker.PodMetadata.Labels } }
  let value := { value with Fuse := { value.Fuse with
    Labels := UnionMapsWithOverride commonLabels runtime.Spec.Fuse.PodMetadata.Labels } }
  let commonAnnotations := UnionMapsWithOverride (some []) runtime.Spec.PodMetadata.Annotations
  let value := { value with Master := { value.Master with
    Annotations :=
      UnionMapsWithOverride commonAnnotations runtime.Spec.Master.PodMetadata.Annotations } }
  let value := { value with Worker := { value.Worker with
    Annotations :=
      UnionMapsWithOverride commonAnnotations runtime.Spec.Worker.PodMetadata.Annotations } }
  { value with Fuse := { value.Fuse with
    Annotations :=
      UnionMapsWithOverride commonAnnotations runtime.Spec.Fuse.PodMetadata.Annotations } }

/-- Lines 331-335 of `allocatePorts`: the master block. Each assignment first reads
the slice (which may panic), then writes the map (which may panic). -/
def assignMasterPorts (value : Vineyard) (allocatedPorts : List Int) (index : Nat) :
    Go Vineyard := do
  let p ← sliceAt allocatedPorts index
  let ports ← GoMap.set value.Master.Ports c.MasterClientName p
  let value := { value with Master := { value.Master with Ports := ports } }
  let p ← sliceAt allocatedPorts (index + 1)
  let ports ← GoMap.set value.Master.Ports c.MasterPeerName p
  pure { value with Master := { value.Master with Ports := ports } }

/-- Lines 337-340 of `allocatePorts`: the worker block. -/
def assignWorkerPorts (value : Vineyard) (allocatedPorts : List Int) (index : Nat) :
    Go Vineyard := do
  let p ← sliceAt allocatedPorts index
  let ports ← GoMap.set value.Worker.Ports c.WorkerRPCName p
  let value := { value with Worker := { value.Worker with Ports := ports } }
  let p ← sliceAt allocatedPorts (index + 1)
  let ports ← GoMap.set value.Worker.Ports c.WorkerExporterName p
  pure { value with Worker := { value.Worker with Ports := ports } }

/-- Lines 309-316 of `allocatePorts`: the number of ports the master needs. -/
def expectedMasterPortNum (runtime : datav1alpha1.VineyardRuntime) : Int :=
  if e.IsHostNetwork runtime.Spec.Master.NetworkMode then 2 else 0

/-- Lines 309-316 of `allocatePorts`: the number of ports the worker needs. -/
def expectedWorkerPortNum (runtime : datav1alpha1.VineyardRuntime) : Int :=
  if e.IsHostNetwork runtime.Spec.Worker.NetworkMode then 2 else 0

/-- The method `allocatePorts` (lines 308-343). -/
def allocatePorts (value : Vineyard) (runtime : datav1alpha1.VineyardRuntime) :
    Go AllocResult :=
  let expectedPortNum := expectedMasterPortNum e runtime + expectedWorkerPortNum e runtime
  match e.GetRuntimePortAllocator with
  | .error err => pure ⟨value, some err, [Call.GetRuntimePortAllocator]⟩
  | .ok allocator =>
    let calls := [Call.GetRuntimePortAllocator, Call.GetAvailablePorts expectedPortNum]
    match allocator.GetAvailablePorts expectedPortNum with
    | (_, some err) => pure ⟨value, some err, calls⟩
    | (allocatedPorts, none) => do
      let index := 0
      let (value, index) ←
        if expectedMasterPortNum e runtime > 0 then do
          let value ← assignMasterPorts c value allocatedPorts index
          pure (value, index + 2)
        else pure (value, index)
      let value ←
        if expectedWorkerPortNum e runtime > 0 then
          assignWorkerPorts c value allocatedPorts index
        else pure value
      pure ⟨value, none, calls⟩

/-- The method `transform` (lines 28-77). A bare `return` hands back the named
results `value` and `err` as they stand. -/
def transform (runtime : Option datav1alpha1.VineyardRuntime) : Go TransformResult :=
  match runtime with
  | none => pure ⟨none, some "the vineyardRuntime is null", []⟩
  | some runtime =>
    let calls := [Call.GetDataset]
    match e.GetDataset with
    | (_, some err) => pure ⟨none, some err, calls⟩
    | (dataset, none) =>
      let value : Vineyard := { Owner := e.GenerateOwnerReferenceFromObject runtime }
      let value := { value with FullnameOverride := e.name }
      let value := { value with
        OwnerDatasetId := e.GetDatasetId e.namespace_ e.name e.GetOwnerDatasetUID }
      let calls := calls ++ [Call.transformTieredStore]
      let ts := transformTieredStore runtime
      let value := { value with TieredStore := ts.1 }
      match ts.2 with
      | some err => pure ⟨some value, some err, calls⟩
      | none =>
        let calls := calls ++ [Call.transformMasters]
        let m := transformMasters c e runtime dataset value
        match m.2 with
        | some err => pure ⟨some m.1, some err, calls⟩
        | none =>
          let calls := calls ++ [Call.transformWorkers]
          let w := transformWorkers c e runtime m.1
          match w.2 with
          | some err => pure ⟨some w.1, some err, calls⟩
          | none =>
            let calls := calls ++ [Call.transformFuse]
            let value := transformFuse c e runtime w.1
            let calls := calls ++ [Call.transformPodMetadata]
            let value := transformPodMetadata runtime value
            if e.IsHostNetwork runtime.Spec.Master.NetworkMode ||
                e.IsHostNetwork runtime.Spec.Worker.NetworkMode then
              match allocatePorts c e value runtime with
              | .error p => .error p
              | .ok a =>
                let calls := calls ++ [Call.allocatePorts] ++ a.calls
                match a.err with
                | some err => pure ⟨some a.value, some err, calls⟩
                | none =>
                  let value := { a.value with DisablePrometheus := true }
                  pure ⟨some value, none, calls⟩
            else
              let value := { value with DisablePrometheus := true }
              pure ⟨some value, none, calls⟩

end Methods

/-! ## The level resolved for one declared level -/

/-- The level `transformTieredStore` appends for one declared level. -/
def resolvedLevel (level : datav1alpha1.Level) : Level :=
  if level.MediumType = "MEM" then
    { MediumType := level.MediumType, Quota := level.Quota }
  else
    { Level := 1
      MediumType := level.MediumType
      VolumeType := level.VolumeType
      VolumeSource := level.VolumeSource
      Path := level.Path
      Quota := level.Quota
      QuotaList := level.QuotaList
      High := level.High
      Low := level.Low }

/-! ## Sample inputs -/

/-- A sample assignment of the package constants. -/
def sampleConsts : Consts where
  MasterClientName := "client"
  MasterClientPort := 2379
  MasterPeerName := "peer"
  MasterPeerPort := 2380
  WorkerRPCName := "rpc"
  WorkerRPCPort := 9600
  WorkerExporterName := "exporter"
  WorkerExporterPort := 9144
  WorkerReserveMemory := "vineyardd.reserve.memory"
  DefaultWorkerReserveMemoryValue := "true"
  WorkerEtcdPrefix := "etcd.prefix"
  DefaultWorkerEtcdPrefixValue := "/vineyard"
  VineyarddSize := "size"
  DefaultSize := "0"
  EtcdEndpoint := "etcd_endpoint"
  EtcdPrefix := "etcd_prefix"
  DefaultEtcdPrefix := "/vineyard"

/-- A pool that hands out the ports 20000, 20001, ... and never fails. -/
def samplePool : RuntimePortAllocator where
  GetAvailablePorts := fun portNum =>
    ((List.range portNum.toNat).map (fun i => 20000 + (i : Int)), none)

/-- A sample engine: every helper of another file succeeds and leaves the value alone. -/
def sampleEngine : VineyardEngine where
  name := "vy"
  namespace_ := "default"
  GetOwnerDatasetUID := "uid"
  getMountPoint := "/runtime-mnt/vineyard/default/vy/vineyard-fuse"
  GetDataset := (some { Name := "vy" }, none)
  GetDatasetId := fun ns name uid => ns ++ "-" ++ name ++ "-" ++ uid
  GetFuseLabelName := fun ns name uid => "fluid.io/f-" ++ ns ++ "-" ++ name ++ "-" ++ uid
  GenerateOwnerReferenceFromObject := fun runtime => runtime.Name
  HostPIDEnabled := fun _ => false
  IsHostNetwork := fun n => n == "HostNetwork"
  parseMasterImage := fun image tag policy => (image, tag, policy)
  parseWorkerImage := fun image tag policy => (image, tag, policy)
  parseFuseImage := fun image tag policy => (image, tag, policy)
  transformResourcesForMaster := fun _ value => value
  transformResourcesForWorker := fun _ value => (value, none)
  transformResourcesForFuse := fun _ value => value
  transformMasterVolumes := fun _ value => (value, none)
  transformWorkerVolumes := fun _ value => (value, none)
  GetRuntimePortAllocator := .ok samplePool

/-- A runtime with a memory tier and a disk tier, every component in container network. -/
def sampleRuntime : datav1alpha1.VineyardRuntime where
  Name := "vy"
  Namespace := "default"
  Spec := {
    Master := { NetworkMode := "ContainerNetwork" }
    Worker := { NetworkMode := "ContainerNetwork" }
    Fuse := { NetworkMode := "ContainerNetwork" }
    TieredStore := { Levels := [
      { MediumType := "MEM", Quota := some "20Gi", Path := "/dev/shm", High := "0.9" },
      { MediumType := "SSD", Quota := some "100Gi", Path := "/mnt/ssd", VolumeType := "hostPath",
        QuotaList := "50Gi,50Gi", High := "0.95", Low := "0.7" }] } }

/-- The sample runtime without any tier. -/
def emptyStoreRuntime : datav1alpha1.VineyardRuntime :=
  { sampleRuntime with Spec := { sampleRuntime.Spec with TieredStore := { Levels := [] } } }

/-- The sample runtime with the master in host network. -/
def hostMasterRuntime : datav1alpha1.VineyardRuntime :=
  { sampleRuntime with Spec := { sampleRuntime.Spec with
      Master := { NetworkMode := "HostNetwork" } } }

/-- The sample runtime with the master in host network and a user-declared worker port. -/
def hostMasterWorkerPortRuntime : datav1alpha1.VineyardRuntime :=
  { sampleRuntime with Spec := { sampleRuntime.Spec with
      Master := { NetworkMode := "HostNetwork" }
      Worker := { NetworkMode := "ContainerNetwork", Ports := some [("rpc", 7000)] } } }

/-- The sample runtime with master and worker in host network. -/
def hostBothRuntime : datav1alpha1.VineyardRuntime :=
  { sampleRuntime with Spec := { sampleRuntime.Spec with
      Master := { NetworkMode := "HostNetwork" }
      Worker := { NetworkMode := "HostNetwork" } } }

/-- The sample engine with a master volume transform that fails. -/
def masterVolumesFailEngine : VineyardEngine :=
  { sampleEngine with transformMasterVolumes := fun _ value => (value, some "no master volume") }

/-- The sample engine with a worker volume transform that fails. -/
def workerVolumesFailEngine : VineyardEngine :=
  { sampleEngine with transformWorkerVolumes := fun _ value => (value, some "no worker volume") }

/-- A value as `transformMasters` and `transformWorkers` leave its port maps for a runtime. -/
def portsValue (c : Consts) (runtime : datav1alpha1.VineyardRuntime) : Vineyard :=
  { Master := { Ports := transformMasterPorts c runtime }
    Worker := { Ports := transformWorkerPorts c runtime } }

/-- The sample runtime with user-declared ports and options. -/
def userRuntime : datav1alpha1.VineyardRuntime :=
  { sampleRuntime with Spec := { sampleRuntime.Spec with
      Master := {
        NetworkMode := "ContainerNetwork"
        Replicas := 3
        Ports := some [("client", 3000), ("metrics", 4000)]
        Options := some [("etcd.prefix", "/custom"), ("debug", "on")] }
      Worker := {
        NetworkMode := "ContainerNetwork"
        Ports := some [("exporter", 5000)] }
      Fuse := {
        NetworkMode := "ContainerNetwork"
        Options := some [("size", "10Gi"), ("cache", "lru")] } } }

/-- The sample runtime whose user supplies the reserve-memory option of the master,
under the name the constants give it, with the very value the constants give its
baseline. -/
def defaultValueOptionRuntime (c : Consts) : datav1alpha1.VineyardRuntime :=
  { sampleRuntime with Spec := { sampleRuntime.Spec with
      Master := {
        NetworkMode := "ContainerNetwork"
        Options := some [(c.WorkerReserveMemory, c.DefaultWorkerReserveMemoryValue)] } } }

/-- The sample engine without a port allocator. -/
def noAllocatorEngine : VineyardEngine :=
  { sampleEngine with GetRuntimePortAllocator := .error "runtime port allocator not setup" }

/-- The sample engine with a pool that has no port left. -/
def exhaustedPoolEngine : VineyardEngine :=
  { sampleEngine with
    GetRuntimePortAllocator := .ok ⟨fun _ => ([], some "no available port")⟩ }

/-- The helpers of other files that run once a port map is set leave that map as it is:
the master volume transform and the worker resource transform leave the master ports,
the worker volume transform and the fuse resource transform leave the ports of both. -/
def KeepsPorts (e : VineyardEngine) (runtime : datav1alpha1.VineyardRuntime) : Prop :=
  (∀ v, (e.transformMasterVolumes runtime v).1.Master.Ports = v.Master.Ports) ∧
  (∀ v, (e.transformResourcesForWorker runtime v).1.Master.Ports = v.Master.Ports) ∧
  (∀ v, (e.transformWorkerVolumes runtime v).1.Master.Ports = v.Master.Ports ∧
    (e.transformWorkerVolumes runtime v).1.Worker.Ports = v.Worker.Ports) ∧
  (∀ v, (e.transformResourcesForFuse runtime v).Master.Ports = v.Master.Ports ∧
    (e.transformResourcesForFuse runtime v).Worker.Ports = v.Worker.Ports)

/-- How a merged option map `res` holds a baseline name `k` with default `d` next to
the user map: the name is present; it holds the default when the user did not supply
the name and the value of the user when they did; so it holds the default exactly
when the user supplied nothing or the default itself. -/
def BaselineEntry (res user : GoMap String) (k d : String) : Prop :=
  (∃ v, GoMap.get res k = some v) ∧
  (GoMap.get user k = none → GoMap.get res k = some d) ∧
  (∀ v, GoMap.get user k = some v → GoMap.get res k = some v) ∧
  (GoMap.get res k = some d ↔ (GoMap.get user k = none ∨ GoMap.get user k = some d))

/-! ## Lemmas on maps -/

theorem GoMap.get_put_same {V : Type} (l : List (String × V)) (k : String) (v : V) :
    GoMap.get (some (GoMap.put l k v)) k = some v := by
  simp [GoMap.get, GoMap.put, GoMap.entries]

theorem GoMap.get_put_other {V : Type} (l : List (String × V)) (k k' : String) (v : V)
    (h : k ≠ k') : GoMap.get (some (GoMap.put l k v)) k' = GoMap.get (some l) k' := by
  have hfilter : ∀ l : List (String × V),
      (l.filter (fun kv => !(kv.1 == k))).find? (fun kv => kv.1 == k') =
        l.find? (fun kv => kv.1 == k') := by
    intro l
    induction l with
    | nil => rfl
    | cons x xs ih =>
      by_cases hx : x.1 = k
      · have hx' : (x.1 == k') = false := by
          simpa using fun h' : x.1 = k' => h (hx.symm.trans h')
        have hxk : (!(x.1 == k)) = false := by simp [hx]
        rw [List.filter_cons_of_neg (by simp [hx]), List.find?_cons, hx', ih]
      · by_cases hx' : x.1 = k'
        · rw [List.filter_cons_of_pos (by simp [hx]), List.find?_cons, List.find?_cons]
          simp [hx']
        · have hxk' : (x.1 == k') = false := by simpa using hx'
          rw [List.filter_cons_of_pos (by simp [hx]), List.find?_cons, List.find?_cons, hxk', ih]
  simp only [GoMap.get, GoMap.put, GoMap.entries]
  rw [List.find?_cons]
  have hk : ((k, v).1 == k') = false := by simpa using h
  rw [hk]
  simp only []
  rw [hfilter]

/-! ## Lemmas on the tiered store -/

theorem appendLevel_eq (tieredStore : TieredStore) (level : datav1alpha1.Level) :
    appendLevel tieredStore level = { Levels := tieredStore.Levels ++ [resolvedLevel level] } := by
  unfold appendLevel resolvedLevel
  split <;> rfl

theorem foldl_appendLevel (levels : List datav1alpha1.Level) (tieredStore : TieredStore) :
    levels.foldl appendLevel tieredStore =
      { Levels := tieredStore.Levels ++ levels.map resolvedLevel } := by
  induction levels generalizing tieredStore with
  | nil => simp
  | cons x xs ih => simp [List.foldl_cons, ih, appendLevel_eq]

theorem transformTieredStore_of_ne_nil (runtime : datav1alpha1.VineyardRuntime)
    (h : runtime.Spec.TieredStore.Levels ≠ []) :
    transformTieredStore runtime =
      ({ Levels := runtime.Spec.TieredStore.Levels.map resolvedLevel }, none) := by
  have hlen : ¬ runtime.Spec.TieredStore.Levels.length = 0 := by
    simpa [List.length_eq_zero] using h
  simp [transformTieredStore, hlen, foldl_appendLevel]

theorem transformTieredStore_of_nil (runtime : datav1alpha1.VineyardRuntime)
    (h : runtime.Spec.TieredStore.Levels = []) :
    transformTieredStore runtime = ({ Levels := [] }, some "the tieredstore is empty") := by
  simp [transformTieredStore, h]

/-! ## Tiered store: the claims -/

/-- C1: on a non-empty level list `transformTieredStore` succeeds, returns as many
levels as it was given, and the level at every index carries the medium type and
the quota of the declared level at that index. -/
theorem transformTieredStore_keeps_count_and_order (runtime : datav1alpha1.VineyardRuntime)
    (h : runtime.Spec.TieredStore.Levels ≠ []) :
    (transformTieredStore runtime).2 = none ∧
    (transformTieredStore runtime).1.Levels.length = runtime.Spec.TieredStore.Levels.length ∧
    ∀ (i : Nat) (level : datav1alpha1.Level),
      runtime.Spec.TieredStore.Levels[i]? = some level →
      ∃ out, (transformTieredStore runtime).1.Levels[i]? = some out ∧
        out.MediumType = level.MediumType ∧ out.Quota = level.Quota := by
  rw [transformTieredStore_of_ne_nil runtime h]
  refine ⟨rfl, by simp, ?_⟩
  intro i level hi
  refine ⟨resolvedLevel level, by simp [hi], ?_, ?_⟩
  · unfold resolvedLevel; split <;> rfl
  · unfold resolvedLevel; split <;> rfl

/-- Witness of C1 on the sample runtime, whose two tiers are a memory and a disk tier. -/
theorem transformTieredStore_keeps_count_and_order_witness :
    sampleRuntime.Spec.TieredStore.Levels ≠ [] ∧
    (transformTieredStore sampleRuntime).2 = none ∧
    (transformTieredStore sampleRuntime).1.Levels.length =
      sampleRuntime.Spec.TieredStore.Levels.length ∧
    ∀ (i : Nat) (level : datav1alpha1.Level),
      sampleRuntime.Spec.TieredStore.Levels[i]? = some level →
      ∃ out, (transformTieredStore sampleRuntime).1.Levels[i]? = some out ∧
        out.MediumType = level.MediumType ∧ out.Quota = level.Quota :=
  ⟨by decide, transformTieredStore_keeps_count_and_order sampleRuntime (by decide)⟩

/-- C5: a declared level whose medium type is "MEM" resolves, at the same index,
to a level that carries its medium type and quota and has the zero value in Path,
VolumeType, VolumeSource, QuotaList, High, Low and Level. -/
theorem transformTieredStore_memory_level (runtime : datav1alpha1.VineyardRuntime)
    (i : Nat) (level : datav1alpha1.Level)
    (hi : runtime.Spec.TieredStore.Levels[i]? = some level)
    (hmem : level.MediumType = "MEM") :
    ∃ out, (transformTieredStore runtime).1.Levels[i]? = some out ∧
      out.MediumType = level.MediumType ∧ out.Quota = level.Quota ∧
      out.Path = "" ∧ out.VolumeType = "" ∧ out.VolumeSource = "" ∧ out.QuotaList = "" ∧
      out.High = "" ∧ out.Low = "" ∧ out.Level = 0 := by
  have hne : runtime.Spec.TieredStore.Levels ≠ [] := by
    intro h; rw [h] at hi; simp at hi
  rw [transformTieredStore_of_ne_nil runtime hne]
  refine ⟨resolvedLevel level, by simp [hi], ?_⟩
  simp [resolvedLevel, hmem]

/-- Witness of C5: the memory tier of the sample runtime declares a path and a high
watermark, which the resolved level does not carry. -/
theorem transformTieredStore_memory_level_witness :
    ∃ out, (transformTieredStore sampleRuntime).1.Levels[0]? = some out ∧
      out.MediumType = "MEM" ∧ out.Quota = some "20Gi" ∧
      out.Path = "" ∧ out.VolumeType = "" ∧ out.VolumeSource = "" ∧ out.QuotaList = "" ∧
      out.High = "" ∧ out.Low = "" ∧ out.Level = 0 :=
  transformTieredStore_memory_level sampleRuntime 0
    { MediumType := "MEM", Quota := some "20Gi", Path := "/dev/shm", High := "0.9" } rfl rfl

/-- C6: a declared level whose medium type is not "MEM" resolves, at the same
index, to a level with Level 1 whose MediumType, VolumeType, VolumeSource, Path,
Quota, QuotaList, High and Low are those of the declared level. -/
theorem transformTieredStore_other_level (runtime : datav1alpha1.VineyardRuntime)
    (i : Nat) (level : datav1alpha1.Level)
    (hi : runtime.Spec.TieredStore.Levels[i]? = some level)
    (hmem : level.MediumType ≠ "MEM") :
    ∃ out, (transformTieredStore runtime).1.Levels[i]? = some out ∧
      out.Level = 1 ∧ out.MediumType = level.MediumType ∧ out.VolumeType = level.VolumeType ∧
      out.VolumeSource = level.VolumeSource ∧ out.Path = level.Path ∧
      out.Quota = level.Quota ∧ out.QuotaList = level.QuotaList ∧
      out.High = level.High ∧ out.Low = level.Low := by
  have hne : runtime.Spec.TieredStore.Levels ≠ [] := by
    intro h; rw [h] at hi; simp at hi
  rw [transformTieredStore_of_ne_nil runtime hne]
  refine ⟨resolvedLevel level, by simp [hi], ?_⟩
  simp [resolvedLevel, hmem]

/-- Witness of C6 on the disk tier of the sample runtime. -/
theorem transformTieredStore_other_level_witness :
    ∃ out, (transformTieredStore sampleRuntime).1.Levels[1]? = some out ∧
      out.Level = 1 ∧ out.MediumType = "SSD" ∧ out.VolumeType = "hostPath" ∧
      out.VolumeSource = "" ∧ out.Path = "/mnt/ssd" ∧
      out.Quota = some "100Gi" ∧ out.QuotaList = "50Gi,50Gi" ∧
      out.High = "0.95" ∧ out.Low = "0.7" :=
  transformTieredStore_other_level sampleRuntime 1
    { MediumType := "SSD", Quota := some "100Gi", Path := "/mnt/ssd", VolumeType := "hostPath",
      QuotaList := "50Gi,50Gi", High := "0.95", Low := "0.7" } rfl (by decide)

/-- C7: `transformTieredStore` returns an error exactly when the level list has no
element; the store returned with the error has no level, and the store of every
successful result has at least one level. -/
theorem transformTieredStore_error_iff_empty (runtime : datav1alpha1.VineyardRuntime) :
    ((transformTieredStore runtime).2 ≠ none ↔ runtime.Spec.TieredStore.Levels.length = 0) ∧
    ((transformTieredStore runtime).2 ≠ none → (transformTieredStore runtime).1.Levels = []) ∧
    ((transformTieredStore runtime).2 = none →
      1 ≤ (transformTieredStore runtime).1.Levels.length) := by
  by_cases h : runtime.Spec.TieredStore.Levels = []
  · rw [transformTieredStore_of_nil runtime h]
    simp [h]
  · rw [transformTieredStore_of_ne_nil runtime h]
    have hpos : 0 < runtime.Spec.TieredStore.Levels.length := List.length_pos.mpr h
    simp [h]
    omega

/-! ## Lemmas on the port assignment -/

theorem assignMasterPorts_ok (c : Consts) (value : Vineyard) (ports : List Int) (i : Nat)
    (a b : Int) (l : List (String × Int)) (ha : ports[i]? = some a)
    (hb : ports[i + 1]? = some b) (hl : value.Master.Ports = some l) :
    assignMasterPorts c value ports i = .ok { value with Master := { value.Master with
      Ports := some (GoMap.put (GoMap.put l c.MasterClientName a) c.MasterPeerName b) } } := by
  simp [assignMasterPorts, sliceAt, ha, hb, hl, GoMap.set, bind, Except.bind, pure, Except.pure]

theorem assignWorkerPorts_ok (c : Consts) (value : Vineyard) (ports : List Int) (i : Nat)
    (a b : Int) (l : List (String × Int)) (ha : ports[i]? = some a)
    (hb : ports[i + 1]? = some b) (hl : value.Worker.Ports = some l) :
    assignWorkerPorts c value ports i = .ok { value with Worker := { value.Worker with
      Ports := some (GoMap.put (GoMap.put l c.WorkerRPCName a) c.WorkerExporterName b) } } := by
  simp [assignWorkerPorts, sliceAt, ha, hb, hl, GoMap.set, bind, Except.bind, pure, Except.pure]

theorem GoMap.get_put_put_first {V : Type} (l : List (String × V)) (k k' : String) (a b : V)
    (h : k ≠ k') : GoMap.get (some (GoMap.put (GoMap.put l k a) k' b)) k = some a := by
  rw [GoMap.get_put_other _ _ _ _ (Ne.symm h), GoMap.get_put_same]

theorem getElem?_of_lt_length (ports : List Int) (i : Nat) (h : i < ports.length) :
    ∃ a, ports[i]? = some a := ⟨ports[i], List.getElem?_eq_getElem h⟩

/-! ## The pipeline: the claims -/

/-- C8: with a nil runtime `transform` returns a nil value and the error
"the vineyardRuntime is null", whatever the engine, and has made no call: neither
the dataset lookup, nor the tiered-store resolver, nor the port allocator. -/
theorem transform_nil_runtime (c : Consts) (e : VineyardEngine) :
    transform c e none = .ok ⟨none, some "the vineyardRuntime is null", []⟩ := rfl

/-- C2, as stated, fails: on a runtime without tiers `transform` returns the error of
the tiered-store step together with a value that is not nil. -/
theorem transform_error_value_counterexample :
    ∃ r, transform sampleConsts sampleEngine (some emptyStoreRuntime) = .ok r ∧
      r.err = some "the tieredstore is empty" ∧ r.value ≠ none ∧
      r.calls = [Call.GetDataset, Call.transformTieredStore] :=
  ⟨_, rfl, rfl, by decide, rfl⟩

/-- C2, amended: when `transform` returns an error, the value it returns is nil
exactly when the runtime is nil or the dataset lookup failed; an error of a later
step (tiered store, master, worker, port allocation) comes with the value built so
far. -/
theorem transform_error_value (c : Consts) (e : VineyardEngine)
    (runtime : Option datav1alpha1.VineyardRuntime) (r : TransformResult)
    (h : transform c e runtime = .ok r) (herr : r.err ≠ none) :
    r.value = none ↔ (runtime = none ∨ e.GetDataset.2 ≠ none) := by
  cases runtime with
  | none =>
    have hr : r = ⟨none, some "the vineyardRuntime is null", []⟩ := by
      have h2 : transform c e none = .ok ⟨none, some "the vineyardRuntime is null", []⟩ := rfl
      rw [h] at h2
      exact Except.ok.inj h2
    simp [hr]
  | some runtime =>
    rcases hds : e.GetDataset with ⟨dataset, _ | derr⟩
    · have hv : r.value ≠ none := by
        unfold transform at h
        simp only [hds] at h
        split at h
        · cases h; simp
        · split at h
          · cases h; simp
          · split at h
            · cases h; simp
            · split at h
              · split at h
                · cases h
                · split at h
                  · cases h; simp
                  · cases h; simp
              · cases h; simp
      simp [hv]
    · unfold transform at h
      simp only [hds] at h
      cases h
      simp

/-- Witness of the amended C2 on the runtime without tiers. -/
theorem transform_error_value_witness :
    (⟨some { Owner := "vy", FullnameOverride := "vy", OwnerDatasetId := "default-vy-uid" },
        some "the tieredstore is empty",
        [Call.GetDataset, Call.transformTieredStore]⟩ : TransformResult).value = none ↔
      ((some emptyStoreRuntime = none) ∨ sampleEngine.GetDataset.2 ≠ none) :=
  transform_error_value sampleConsts sampleEngine (some emptyStoreRuntime) _ rfl (by decide)

/-- C3, as stated, fails: with a master volume transform that fails, `transformMasters`
returns that error and `transform` stops after the master step. -/
theorem transformMasters_volume_error_counterexample :
    (masterVolumesFailEngine.transformMasterVolumes sampleRuntime {}).2 =
      some "no master volume" ∧
    (transformMasters sampleConsts masterVolumesFailEngine sampleRuntime none {}).2 =
      some "no master volume" ∧
    ∃ r, transform sampleConsts masterVolumesFailEngine (some sampleRuntime) = .ok r ∧
      r.err = some "no master volume" ∧
      r.calls = [Call.GetDataset, Call.transformTieredStore, Call.transformMasters] :=
  ⟨rfl, rfl, _, rfl, rfl, rfl⟩

/-- C3, amended: when the master volume transform fails, `transformMasters` returns
that error and `transform` returns it after the master step, without running the
worker, fuse, pod-metadata or port steps; when the worker volume transform fails
(the steps before it having succeeded), `transformWorkers` returns that error and
`transform` returns it after the worker step. -/
theorem transform_returns_volume_error (c : Consts) (e : VineyardEngine)
    (runtime : datav1alpha1.VineyardRuntime) (err : Error)
    (hd : e.GetDataset.2 = none) (ht : runtime.Spec.TieredStore.Levels ≠ []) :
    ((∀ v, (e.transformMasterVolumes runtime v).2 = some err) →
      (∀ dataset value, (transformMasters c e runtime dataset value).2 = some err) ∧
      ∃ v, transform c e (some runtime) =
        .ok ⟨some v, some err,
          [Call.GetDataset, Call.transformTieredStore, Call.transformMasters]⟩) ∧
    ((∀ v, (e.transformMasterVolumes runtime v).2 = none) →
      (∀ v, (e.transformResourcesForWorker runtime v).2 = none) →
      (∀ v, (e.transformWorkerVolumes runtime v).2 = some err) →
      (∀ value, (transformWorkers c e runtime value).2 = some err) ∧
      ∃ v, transform c e (some runtime) =
        .ok ⟨some v, some err,
          [Call.GetDataset, Call.transformTieredStore, Call.transformMasters,
            Call.transformWorkers]⟩) := by
  rcases hds : e.GetDataset with ⟨ds, derr⟩
  rw [hds] at hd
  simp only at hd
  subst hd
  have hts := transformTieredStore_of_ne_nil runtime ht
  have hmasters : ∀ dataset value, ∃ v, (transformMasters c e runtime dataset value).2 =
      (e.transformMasterVolumes runtime v).2 := fun _ _ => ⟨_, rfl⟩
  constructor
  · intro hvol
    have hm : ∀ dataset value, (transformMasters c e runtime dataset value).2 = some err := by
      intro dataset value
      obtain ⟨v, hv⟩ := hmasters dataset value
      rw [hv]; exact hvol v
    refine ⟨hm, ?_⟩
    unfold transform
    simp only [hds, hts, hm]
    exact ⟨_, rfl⟩
  · intro hvol hres hwvol
    have hm : ∀ dataset value, (transformMasters c e runtime dataset value).2 = none := by
      intro dataset value
      obtain ⟨v, hv⟩ := hmasters dataset value
      rw [hv]; exact hvol v
    have hw : ∀ value, (transformWorkers c e runtime value).2 = some err := by
      intro value
      unfold transformWorkers
      simp only [hres]
      exact hwvol _
    refine ⟨hw, ?_⟩
    unfold transform
    simp only [hds, hts, hm, hw]
    exact ⟨_, rfl⟩

/-- Witness of the amended C3 on the two sample engines whose volume transform fails. -/
theorem transform_returns_volume_error_witness :
    ((transformMasters sampleConsts masterVolumesFailEngine sampleRuntime none {}).2 =
      some "no master volume") ∧
    ((transformWorkers sampleConsts workerVolumesFailEngine sampleRuntime {}).2 =
      some "no worker volume") :=
  ⟨((transform_returns_volume_error sampleConsts masterVolumesFailEngine sampleRuntime
      "no master volume" rfl (by decide)).1 (fun _ => rfl)).1 none {},
   ((transform_returns_volume_error sampleConsts workerVolumesFailEngine sampleRuntime
      "no worker volume" rfl (by decide)).2 (fun _ => rfl) (fun _ => rfl) (fun _ => rfl)).1 {}⟩

/-- C4 at its failing input: with the master in host network and no user fuse option,
`transform` succeeds, the master client port of the returned value is the allocated
port 20000, and the fuse etcd endpoint of the same value still names the port 2379
that the master port map held before the allocation. -/
theorem transform_fuse_endpoint_keeps_old_port :
    hostMasterRuntime.Spec.Fuse.Options = none ∧
    ∃ v calls, transform sampleConsts sampleEngine (some hostMasterRuntime) =
        .ok ⟨some v, none, calls⟩ ∧
      GoMap.get v.Master.Ports sampleConsts.MasterClientName = some 20000 ∧
      GoMap.get v.Fuse.Options sampleConsts.EtcdEndpoint =
        some "http://vy-master-0.vy-master.default:2379" ∧
      etcdEndpoint "vy" "default" 20000 = "http://vy-master-0.vy-master.default:20000" :=
  ⟨rfl, _, _, rfl, rfl, rfl, rfl⟩

/-- C9, as stated, fails: with host network for the master only and no user-declared
master port, a user-declared worker port stays in the resolved worker port map,
which therefore is not the map of the named worker defaults. -/
theorem allocatePorts_worker_defaults_counterexample :
    sampleEngine.IsHostNetwork hostMasterWorkerPortRuntime.Spec.Master.NetworkMode = true ∧
    sampleEngine.IsHostNetwork hostMasterWorkerPortRuntime.Spec.Worker.NetworkMode = false ∧
    GoMap.len hostMasterWorkerPortRuntime.Spec.Master.Ports = 0 ∧
    ∃ v calls, transform sampleConsts sampleEngine (some hostMasterWorkerPortRuntime) =
        .ok ⟨some v, none, calls⟩ ∧
      GoMap.get v.Worker.Ports sampleConsts.WorkerRPCName = some 7000 ∧
      sampleConsts.WorkerRPCPort = 9600 :=
  ⟨rfl, rfl, rfl, _, _, rfl, rfl, rfl⟩

/-- C9, amended: with host network for the master only and no user-declared master
port, `allocatePorts` asks the allocator for exactly 2 ports; when the allocator
returns two distinct ports p0 and p1, the master client port becomes p0 and the
master peer port p1, and the worker port map stays what `transformWorkerPorts`
returned, which is the map of the named worker defaults when the user declared no
worker port either. The two master port names are distinct constants, as the map
literal of `transformMasterPorts` requires. -/
theorem allocatePorts_master_only (c : Consts) (e : VineyardEngine)
    (runtime : datav1alpha1.VineyardRuntime) (value : Vineyard)
    (allocator : RuntimePortAllocator) (p0 p1 : Int)
    (hmaster : e.IsHostNetwork runtime.Spec.Master.NetworkMode = true)
    (hworker : e.IsHostNetwork runtime.Spec.Worker.NetworkMode = false)
    (huser : GoMap.len runtime.Spec.Master.Ports = 0)
    (hnames : c.MasterClientName ≠ c.MasterPeerName)
    (hvm : value.Master.Ports = transformMasterPorts c runtime)
    (hvw : value.Worker.Ports = transformWorkerPorts c runtime)
    (ha : e.GetRuntimePortAllocator = .ok allocator)
    (hp : allocator.GetAvailablePorts 2 = ([p0, p1], none))
    (hdistinct : p0 ≠ p1) :
    ∃ r, allocatePorts c e value runtime = .ok r ∧ r.err = none ∧
      r.calls = [Call.GetRuntimePortAllocator, Call.GetAvailablePorts 2] ∧
      GoMap.get r.value.Master.Ports c.MasterClientName = some p0 ∧
      GoMap.get r.value.Master.Ports c.MasterPeerName = some p1 ∧
      GoMap.get r.value.Master.Ports c.MasterClientName ≠
        GoMap.get r.value.Master.Ports c.MasterPeerName ∧
      r.value.Worker.Ports = transformWorkerPorts c runtime ∧
      (GoMap.len runtime.Spec.Worker.Ports = 0 →
        r.value.Worker.Ports = some [(c.WorkerRPCName, c.WorkerRPCPort),
          (c.WorkerExporterName, c.WorkerExporterPort)]) := by
  have hl : value.Master.Ports =
      some [(c.MasterClientName, c.MasterClientPort), (c.MasterPeerName, c.MasterPeerPort)] := by
    rw [hvm]; simp [transformMasterPorts, huser]
  have hassign := assignMasterPorts_ok c value [p0, p1] 0 p0 p1 _ rfl rfl hl
  have hrun : allocatePorts c e value runtime = .ok
      ⟨{ value with Master := { value.Master with
          Ports := some (GoMap.put (GoMap.put
            [(c.MasterClientName, c.MasterClientPort), (c.MasterPeerName, c.MasterPeerPort)]
            c.MasterClientName p0) c.MasterPeerName p1) } }, none,
        [Call.GetRuntimePortAllocator, Call.GetAvailablePorts 2]⟩ := by
    unfold allocatePorts
    simp [expectedMasterPortNum, expectedWorkerPortNum, hmaster, hworker, ha, hp, hassign,
      bind, Except.bind, pure, Except.pure]
  refine ⟨_, hrun, rfl, rfl, ?_, ?_, ?_, hvw, ?_⟩
  · exact GoMap.get_put_put_first _ _ _ _ _ hnames
  · exact GoMap.get_put_same _ _ _
  · show GoMap.get (some _) c.MasterClientName ≠ GoMap.get (some _) c.MasterPeerName
    rw [GoMap.get_put_put_first _ _ _ _ _ hnames, GoMap.get_put_same]
    simpa using hdistinct
  · intro hw
    show value.Worker.Ports = _
    rw [hvw]; simp [transformWorkerPorts, hw]

/-- Witness of the amended C9 on the sample runtime with the master in host network. -/
theorem allocatePorts_master_only_witness :
    ∃ r, allocatePorts sampleConsts sampleEngine (portsValue sampleConsts hostMasterRuntime)
        hostMasterRuntime = .ok r ∧ r.err = none ∧
      r.calls = [Call.GetRuntimePortAllocator, Call.GetAvailablePorts 2] ∧
      GoMap.get r.value.Master.Ports "client" = some 20000 ∧
      GoMap.get r.value.Master.Ports "peer" = some 20001 ∧
      GoMap.get r.value.Master.Ports "client" ≠ GoMap.get r.value.Master.Ports "peer" ∧
      r.value.Worker.Ports = transformWorkerPorts sampleConsts hostMasterRuntime ∧
      (GoMap.len hostMasterRuntime.Spec.Worker.Ports = 0 →
        r.value.Worker.Ports = some [("rpc", 9600), ("exporter", 9144)]) :=
  allocatePorts_master_only sampleConsts sampleEngine hostMasterRuntime
    (portsValue sampleConsts hostMasterRuntime) samplePool 20000 20001
    rfl rfl rfl (by decide) rfl rfl rfl rfl (by decide)

/-- C10: `allocatePorts` asks the allocator for 2 ports for each of master and worker
that is in host network (0, 2 or 4 in all); when the allocator returns at least that
many ports and both port maps are set, a host-network master gets ports[0] as client
and ports[1] as peer and a host-network worker then gets ports[2] as rpc and
ports[3] as exporter, while a host-network worker next to a master that is not in
host network gets ports[0] as rpc and ports[1] as exporter. The two port names of a
role are distinct constants, as the map literals of the port transforms require. -/
theorem allocatePorts_consecutive_pairs (c : Consts) (e : VineyardEngine)
    (runtime : datav1alpha1.VineyardRuntime) (value : Vineyard)
    (allocator : RuntimePortAllocator) (ports : List Int) (n : Int)
    (lm lw : List (String × Int))
    (hn : n = (if e.IsHostNetwork runtime.Spec.Master.NetworkMode = true then 2 else 0) +
      (if e.IsHostNetwork runtime.Spec.Worker.NetworkMode = true then 2 else 0))
    (ha : e.GetRuntimePortAllocator = .ok allocator)
    (hp : allocator.GetAvailablePorts n = (ports, none))
    (hlen : n ≤ (ports.length : Int))
    (hm : value.Master.Ports = some lm) (hw : value.Worker.Ports = some lw)
    (hmnames : c.MasterClientName ≠ c.MasterPeerName)
    (hwnames : c.WorkerRPCName ≠ c.WorkerExporterName) :
    (n = 0 ∨ n = 2 ∨ n = 4) ∧
    ∃ r, allocatePorts c e value runtime = .ok r ∧ r.err = none ∧
      r.calls = [Call.GetRuntimePortAllocator, Call.GetAvailablePorts n] ∧
      (e.IsHostNetwork runtime.Spec.Master.NetworkMode = true →
        (∃ p, ports[0]? = some p ∧
          GoMap.get r.value.Master.Ports c.MasterClientName = some p) ∧
        (∃ p, ports[1]? = some p ∧
          GoMap.get r.value.Master.Ports c.MasterPeerName = some p)) ∧
      (e.IsHostNetwork runtime.Spec.Master.NetworkMode = true →
        e.IsHostNetwork runtime.Spec.Worker.NetworkMode = true →
        (∃ p, ports[2]? = some p ∧
          GoMap.get r.value.Worker.Ports c.WorkerRPCName = some p) ∧
        (∃ p, ports[3]? = some p ∧
          GoMap.get r.value.Worker.Ports c.WorkerExporterName = some p)) ∧
      (e.IsHostNetwork runtime.Spec.Master.NetworkMode = false →
        e.IsHostNetwork runtime.Spec.Worker.NetworkMode = true →
        (∃ p, ports[0]? = some p ∧
          GoMap.get r.value.Worker.Ports c.WorkerRPCName = some p) ∧
        (∃ p, ports[1]? = some p ∧
          GoMap.get r.value.Worker.Ports c.WorkerExporterName = some p)) := by
  cases hM : e.IsHostNetwork runtime.Spec.Master.NetworkMode <;>
    cases hW : e.IsHostNetwork runtime.Spec.Worker.NetworkMode <;>
    simp only [hM, hW] at hn <;> simp at hn <;> subst hn
  · have hrun : allocatePorts c e value runtime = .ok
        ⟨value, none, [Call.GetRuntimePortAllocator, Call.GetAvailablePorts 0]⟩ := by
      unfold allocatePorts
      simp [expectedMasterPortNum, expectedWorkerPortNum, hM, hW, ha, hp, pure, Except.pure,
        bind, Except.bind]
    exact ⟨by simp, _, hrun, rfl, rfl, fun h => absurd h (by decide),
      fun h => absurd h (by decide), fun _ h => absurd h (by decide)⟩
  · have h2 : 2 ≤ ports.length := by exact_mod_cast hlen
    obtain ⟨a, hget0⟩ := getElem?_of_lt_length ports 0 (by omega)
    obtain ⟨b, hget1⟩ := getElem?_of_lt_length ports 1 (by omega)
    have hassign := assignWorkerPorts_ok c value ports 0 a b lw hget0 hget1 hw
    have hrun : allocatePorts c e value runtime = .ok
        ⟨{ value with Worker := { value.Worker with
            Ports := some (GoMap.put (GoMap.put lw c.WorkerRPCName a) c.WorkerExporterName b) } },
          none, [Call.GetRuntimePortAllocator, Call.GetAvailablePorts 2]⟩ := by
      unfold allocatePorts
      simp [expectedMasterPortNum, expectedWorkerPortNum, hM, hW, ha, hp, hassign, pure,
        Except.pure, bind, Except.bind]
    exact ⟨by simp, _, hrun, rfl, rfl, fun h => absurd h (by decide),
      fun h => absurd h (by decide),
      fun _ _ => ⟨⟨a, hget0, GoMap.get_put_put_first _ _ _ _ _ hwnames⟩,
        ⟨b, hget1, GoMap.get_put_same _ _ _⟩⟩⟩
  · have h2 : 2 ≤ ports.length := by exact_mod_cast hlen
    obtain ⟨a, hget0⟩ := getElem?_of_lt_length ports 0 (by omega)
    obtain ⟨b, hget1⟩ := getElem?_of_lt_length ports 1 (by omega)
    have hassign := assignMasterPorts_ok c value ports 0 a b lm hget0 hget1 hm
    have hrun : allocatePorts c e value runtime = .ok
        ⟨{ value with Master := { value.Master with
            Ports := some (GoMap.put (GoMap.put lm c.MasterClientName a) c.MasterPeerName b) } },
          none, [Call.GetRuntimePortAllocator, Call.GetAvailablePorts 2]⟩ := by
      unfold allocatePorts
      simp [expectedMasterPortNum, expectedWorkerPortNum, hM, hW, ha, hp, hassign, pure,
        Except.pure, bind, Except.bind]
    exact ⟨by simp, _, hrun, rfl, rfl,
      fun _ => ⟨⟨a, hget0, GoMap.get_put_put_first _ _ _ _ _ hmnames⟩,
        ⟨b, hget1, GoMap.get_put_same _ _ _⟩⟩,
      fun _ h => absurd h (by decide), fun h => absurd h (by decide)⟩
  · have h4 : 4 ≤ ports.length := by exact_mod_cast hlen
    obtain ⟨a, hget0⟩ := getElem?_of_lt_length ports 0 (by omega)
    obtain ⟨b, hget1⟩ := getElem?_of_lt_length ports 1 (by omega)
    obtain ⟨a2, hget2⟩ := getElem?_of_lt_length ports 2 (by omega)
    obtain ⟨b2, hget3⟩ := getElem?_of_lt_length ports 3 (by omega)
    have hassign := assignMasterPorts_ok c value ports 0 a b lm hget0 hget1 hm
    have hassign2 := assignWorkerPorts_ok c
      { value with Master := { value.Master with
          Ports := some (GoMap.put (GoMap.put lm c.MasterClientName a) c.MasterPeerName b) } }
      ports 2 a2 b2 lw hget2 hget3 hw
    have hrun : allocatePorts c e value runtime = .ok
        ⟨{ value with
            Master := { value.Master with
              Ports := some (GoMap.put (GoMap.put lm c.MasterClientName a) c.MasterPeerName b) }
            Worker := { value.Worker with
              Ports := some (GoMap.put (GoMap.put lw c.WorkerRPCName a2)
                c.WorkerExporterName b2) } },
          none, [Call.GetRuntimePortAllocator, Call.GetAvailablePorts 4]⟩ := by
      unfold allocatePorts
      simp [expectedMasterPortNum, expectedWorkerPortNum, hM, hW, ha, hp, hassign, hassign2,
        pure, Except.pure, bind, Except.bind]
    exact ⟨by simp, _, hrun, rfl, rfl,
      fun _ => ⟨⟨a, hget0, GoMap.get_put_put_first _ _ _ _ _ hmnames⟩,
        ⟨b, hget1, GoMap.get_put_same _ _ _⟩⟩,
      fun _ _ => ⟨⟨a2, hget2, GoMap.get_put_put_first _ _ _ _ _ hwnames⟩,
        ⟨b2, hget3, GoMap.get_put_same _ _ _⟩⟩,
      fun h => absurd h (by decide)⟩

/-- Witness of C10 on the sample runtime with master and worker in host network. -/
theorem allocatePorts_consecutive_pairs_witness :
    ((4 : Int) = 0 ∨ (4 : Int) = 2 ∨ (4 : Int) = 4) ∧
    ∃ r, allocatePorts sampleConsts sampleEngine (portsValue sampleConsts hostBothRuntime)
        hostBothRuntime = .ok r ∧ r.err = none ∧
      r.calls = [Call.GetRuntimePortAllocator, Call.GetAvailablePorts 4] ∧
      (sampleEngine.IsHostNetwork hostBothRuntime.Spec.Master.NetworkMode = true →
        (∃ p, [(20000 : Int), 20001, 20002, 20003][0]? = some p ∧
          GoMap.get r.value.Master.Ports "client" = some p) ∧
        (∃ p, [(20000 : Int), 20001, 20002, 20003][1]? = some p ∧
          GoMap.get r.value.Master.Ports "peer" = some p)) ∧
      (sampleEngine.IsHostNetwork hostBothRuntime.Spec.Master.NetworkMode = true →
        sampleEngine.IsHostNetwork hostBothRuntime.Spec.Worker.NetworkMode = true →
        (∃ p, [(20000 : Int), 20001, 20002, 20003][2]? = some p ∧
          GoMap.get r.value.Worker.Ports "rpc" = some p) ∧
        (∃ p, [(20000 : Int), 20001, 20002, 20003][3]? = some p ∧
          GoMap.get r.value.Worker.Ports "exporter" = some p)) ∧
      (sampleEngine.IsHostNetwork hostBothRuntime.Spec.Master.NetworkMode = false →
        sampleEngine.IsHostNetwork hostBothRuntime.Spec.Worker.NetworkMode = true →
        (∃ p, [(20000 : Int), 20001, 20002, 20003][0]? = some p ∧
          GoMap.get r.value.Worker.Ports "rpc" = some p) ∧
        (∃ p, [(20000 : Int), 20001, 20002, 20003][1]? = some p ∧
          GoMap.get r.value.Worker.Ports "exporter" = some p)) :=
  allocatePorts_consecutive_pairs sampleConsts sampleEngine hostBothRuntime
    (portsValue sampleConsts hostBothRuntime) samplePool [20000, 20001, 20002, 20003] 4
    [("client", 2379), ("peer", 2380)] [("rpc", 9600), ("exporter", 9144)]
    rfl rfl rfl (by decide) rfl rfl (by decide) (by decide)

/-! ## Lemmas on the range loop over a map -/

theorem GoMap.find?_none_of_not_mem_keys {V : Type} (l : List (String × V)) (k : String)
    (h : k ∉ l.map Prod.fst) : l.find? (fun kv => kv.1 == k) = none := by
  rw [List.find?_eq_none]
  intro x hx hxk
  apply h
  have hk : x.1 = k := by simpa using hxk
  rw [← hk]
  exact List.mem_map_of_mem Prod.fst hx

theorem GoMap.get_foldl_put_none {V : Type} (l dst : List (String × V)) (k : String)
    (h : l.find? (fun kv => kv.1 == k) = none) :
    GoMap.get (some (l.foldl (fun acc kv => GoMap.put acc kv.1 kv.2) dst)) k =
      GoMap.get (some dst) k := by
  induction l generalizing dst with
  | nil => rfl
  | cons x xs ih =>
    rw [List.find?_cons] at h
    cases hx : (x.1 == k) with
    | true => rw [hx] at h; simp at h
    | false =>
      rw [hx] at h
      have hne : x.1 ≠ k := by simpa using hx
      rw [List.foldl_cons, ih _ h, GoMap.get_put_other _ _ _ _ hne]

theorem GoMap.get_foldl_put_some {V : Type} (l dst : List (String × V)) (k : String) (v : V)
    (hnd : (l.map Prod.fst).Nodup)
    (h : (l.find? (fun kv => kv.1 == k)).map Prod.snd = some v) :
    GoMap.get (some (l.foldl (fun acc kv => GoMap.put acc kv.1 kv.2) dst)) k = some v := by
  induction l generalizing dst with
  | nil => simp at h
  | cons x xs ih =>
    rw [List.map_cons, List.nodup_cons] at hnd
    rw [List.find?_cons] at h
    rw [List.foldl_cons]
    cases hx : (x.1 == k) with
    | true =>
      rw [hx] at h
      have hk : x.1 = k := by simpa using hx
      have hv : x.2 = v := by simpa using h
      have hnone := GoMap.find?_none_of_not_mem_keys xs k (hk ▸ hnd.1)
      rw [GoMap.get_foldl_put_none _ _ _ hnone, hk, hv, GoMap.get_put_same]
    | false =>
      rw [hx] at h
      exact ih _ hnd.2 h

theorem GoMap.get_putAll_none {V : Type} (dst : List (String × V)) (src : GoMap V) (k : String)
    (h : GoMap.get src k = none) :
    GoMap.get (some (GoMap.putAll dst src)) k = GoMap.get (some dst) k := by
  apply GoMap.get_foldl_put_none
  simpa [GoMap.get] using h

theorem GoMap.get_putAll_some {V : Type} (dst : List (String × V)) (src : GoMap V) (k : String)
    (v : V) (hwf : GoMap.WF src) (h : GoMap.get src k = some v) :
    GoMap.get (some (GoMap.putAll dst src)) k = some v :=
  GoMap.get_foldl_put_some _ dst k v hwf h

theorem GoMap.putAll_ne_nil {V : Type} (dst : List (String × V)) (src : GoMap V)
    (h : dst ≠ []) : GoMap.putAll dst src ≠ [] := by
  unfold GoMap.putAll
  generalize GoMap.entries src = l
  induction l generalizing dst with
  | nil => simpa using h
  | cons x xs ih =>
    rw [List.foldl_cons]
    exact ih _ (by simp [GoMap.put])

theorem GoMap.get_pair {V : Type} (k1 k2 k : String) (v1 v2 : V) :
    GoMap.get (some [(k1, v1), (k2, v2)]) k =
      if k = k1 then some v1 else if k = k2 then some v2 else none := by
  by_cases h1 : k = k1
  · subst h1; simp [GoMap.get, GoMap.entries]
  · by_cases h2 : k = k2
    · subst h2
      have : ¬ k1 = k := fun h => h1 h.symm
      simp [GoMap.get, GoMap.entries, List.find?_cons, this, h1]
    · have h1' : ¬ k1 = k := fun h => h1 h.symm
      have h2' : ¬ k2 = k := fun h => h2 h.symm
      simp [GoMap.get, GoMap.entries, List.find?_cons, h1, h2, h1', h2']

theorem GoMap.get_triple {V : Type} (k1 k2 k3 k : String) (v1 v2 v3 : V) :
    GoMap.get (some [(k1, v1), (k2, v2), (k3, v3)]) k =
      if k = k1 then some v1 else if k = k2 then some v2 else if k = k3 then some v3
      else none := by
  by_cases h1 : k = k1
  · subst h1; simp [GoMap.get, GoMap.entries]
  · have h1' : ¬ k1 = k := fun h => h1 h.symm
    have hrest := GoMap.get_pair k2 k3 k v2 v3
    simp only [GoMap.get, GoMap.entries] at hrest ⊢
    rw [List.find?_cons]
    have hk : ((k1, v1).1 == k) = false := by simpa using h1'
    rw [hk]
    simp only [h1, if_false]
    exact hrest

/-- The range loop that overlays the user-declared entries on a literal, guarded by
the length test: the value under a name is the user-declared one, else the one of the
literal. -/
theorem GoMap.get_overlay {V : Type} (base : List (String × V)) (user : GoMap V) (k : String)
    (hwf : GoMap.WF user) :
    GoMap.get (if GoMap.len user > 0 then some (GoMap.putAll base user) else some base) k =
      match GoMap.get user k with
      | some v => some v
      | none => GoMap.get (some base) k := by
  have hentries : GoMap.len user = 0 → GoMap.putAll base user = base := by
    intro h
    have : GoMap.entries user = [] := List.length_eq_zero.mp h
    simp [GoMap.putAll, this]
  have hsame : (if GoMap.len user > 0 then some (GoMap.putAll base user) else some base) =
      some (GoMap.putAll base user) := by
    by_cases h : GoMap.len user > 0
    · simp [h]
    · have h0 : GoMap.len user = 0 := by omega
      simp [h0, hentries h0]
  rw [hsame]
  cases hget : GoMap.get user k with
  | none => rw [GoMap.get_putAll_none _ _ _ hget]
  | some v => rw [GoMap.get_putAll_some _ _ _ v hwf hget]

theorem baselineEntry_of_overlay (res user : GoMap String) (k d : String)
    (h : GoMap.get res k = match GoMap.get user k with
      | some v => some v
      | none => some d) : BaselineEntry res user k d := by
  unfold BaselineEntry
  cases hu : GoMap.get user k with
  | none =>
    rw [hu] at h
    simp [h]
  | some v =>
    rw [hu] at h
    simp only at h
    refine ⟨⟨v, h⟩, by simp, ?_, ?_⟩
    · intro w hw
      rw [h]
      exact hw
    · rw [h]
      simp

/-! ## The port allocation leaves the fuse alone -/

theorem assignMasterPorts_fuse (c : Consts) (value v : Vineyard) (ports : List Int) (i : Nat)
    (h : assignMasterPorts c value ports i = .ok v) : v.Fuse = value.Fuse := by
  unfold assignMasterPorts at h
  simp only [bind, Except.bind, pure, Except.pure] at h
  split at h
  · cases h
  · split at h
    · cases h
    · split at h
      · cases h
      · split at h
        · cases h
        · cases h; rfl

theorem assignWorkerPorts_fuse (c : Consts) (value v : Vineyard) (ports : List Int) (i : Nat)
    (h : assignWorkerPorts c value ports i = .ok v) : v.Fuse = value.Fuse := by
  unfold assignWorkerPorts at h
  simp only [bind, Except.bind, pure, Except.pure] at h
  split at h
  · cases h
  · split at h
    · cases h
    · split at h
      · cases h
      · split at h
        · cases h
        · cases h; rfl

theorem allocatePorts_fuse (c : Consts) (e : VineyardEngine) (value : Vineyard)
    (runtime : datav1alpha1.VineyardRuntime) (a : AllocResult)
    (h : allocatePorts c e value runtime = .ok a) : a.value.Fuse = value.Fuse := by
  unfold allocatePorts at h
  simp only [] at h
  split at h
  · cases h; rfl
  · split at h
    · cases h; rfl
    · simp only [bind, Except.bind, pure, Except.pure] at h
      by_cases hM : expectedMasterPortNum e runtime > 0 <;>
        by_cases hW : expectedWorkerPortNum e runtime > 0 <;>
        simp only [hM, hW, if_true, if_false] at h
      · split at h
        · cases h
        · rename_i v1 h1
          split at h
          · cases h
          · rename_i v2 h2
            cases h
            exact (assignWorkerPorts_fuse c _ _ _ _ h2).trans
              (assignMasterPorts_fuse c _ _ _ _ h1)
      · split at h
        · cases h
        · rename_i v1 h1
          cases h
          exact assignMasterPorts_fuse c _ _ _ _ h1
      · split at h
        · cases h
        · rename_i v2 h2
          cases h
          exact assignWorkerPorts_fuse c _ _ _ _ h2
      · cases h
        rfl

/-! ## Role normalization: the claims -/

/-- C11: the master resolves to 1 replica when the spec declares 0 and to the declared
count otherwise, the resource and volume helpers of the master leaving the count as
`transformMasters` set it. -/
theorem transformMasters_replicas (c : Consts) (e : VineyardEngine)
    (runtime : datav1alpha1.VineyardRuntime) (dataset : Option datav1alpha1.Dataset)
    (value : Vineyard)
    (hres : ∀ v, (e.transformResourcesForMaster runtime v).Master.Replicas = v.Master.Replicas)
    (hvol : ∀ v, (e.transformMasterVolumes runtime v).1.Master.Replicas = v.Master.Replicas) :
    (runtime.Spec.Master.Replicas = 0 →
      (transformMasters c e runtime dataset value).1.Master.Replicas = 1) ∧
    (runtime.Spec.Master.Replicas ≠ 0 →
      (transformMasters c e runtime dataset value).1.Master.Replicas =
        runtime.Spec.Master.Replicas) := by
  have h : (transformMasters c e runtime dataset value).1.Master.Replicas =
      if runtime.Spec.Master.Replicas = 0 then 1 else runtime.Spec.Master.Replicas := by
    unfold transformMasters
    simp only [hvol]
    split_ifs <;> simp [hres, *]
  constructor
  · intro h0
    rw [h, if_pos h0]
  · intro h0
    rw [h, if_neg h0]

/-- Witness of C11: the sample runtime declares no master replica count and resolves
to 1, the runtime with 3 declared replicas resolves to 3. -/
theorem transformMasters_replicas_witness :
    (transformMasters sampleConsts sampleEngine sampleRuntime none {}).1.Master.Replicas = 1 ∧
    (transformMasters sampleConsts sampleEngine userRuntime none {}).1.Master.Replicas = 3 :=
  ⟨(transformMasters_replicas sampleConsts sampleEngine sampleRuntime none {}
      (fun _ => rfl) (fun _ => rfl)).1 rfl,
   (transformMasters_replicas sampleConsts sampleEngine userRuntime none {}
      (fun _ => rfl) (fun _ => rfl)).2 (by decide)⟩

/-- C12: when the user's fuse options have no etcd-endpoint entry, the etcd-endpoint
entry of `transformFuseOptions` is the text "http://" name "-master-0." name "-master."
namespace ":" port, with name the `FullnameOverride` of the value, namespace the one of
the engine and port the decimal text of the master client port the value holds. The
size key and the endpoint key are distinct constants of one map literal. -/
theorem transformFuseOptions_endpoint (c : Consts) (e : VineyardEngine)
    (runtime : datav1alpha1.VineyardRuntime) (value : Vineyard)
    (hkeys : c.VineyarddSize ≠ c.EtcdEndpoint)
    (huser : GoMap.get runtime.Spec.Fuse.Options c.EtcdEndpoint = none) :
    GoMap.get (transformFuseOptions c e runtime value) c.EtcdEndpoint =
      some ("http://" ++ value.FullnameOverride ++ "-master-0." ++ value.FullnameOverride ++
        "-master." ++ e.namespace_ ++ ":" ++
        toString (GoMap.getInt value.Master.Ports c.MasterClientName)) := by
  have hlit : ∀ v1 v2 v3 : String,
      GoMap.get (some [(c.VineyarddSize, v1), (c.EtcdEndpoint, v2), (c.EtcdPrefix, v3)])
        c.EtcdEndpoint = some v2 := by
    intro v1 v2 v3
    rw [GoMap.get_triple, if_neg (Ne.symm hkeys), if_pos rfl]
  unfold transformFuseOptions
  by_cases hlen : GoMap.len runtime.Spec.Fuse.Options > 0
  · simp only [hlen, if_true]
    rw [GoMap.get_putAll_none _ _ _ huser, hlit]
    rfl
  · simp only [hlen, if_false]
    rw [hlit]
    rfl

/-- Witness of C12: the user runtime declares fuse options without an endpoint, and the
value holds the master client port 3000. -/
theorem transformFuseOptions_endpoint_witness :
    GoMap.get (transformFuseOptions sampleConsts sampleEngine userRuntime
        { FullnameOverride := "vy", Master := { Ports := some [("client", 3000)] } })
      "etcd_endpoint" = some "http://vy-master-0.vy-master.default:3000" :=
  transformFuseOptions_endpoint sampleConsts sampleEngine userRuntime
    { FullnameOverride := "vy", Master := { Ports := some [("client", 3000)] } }
    (by decide) rfl

/-- C13: under every name, the map of `transformMasterPorts` holds the user-declared
master port when the user declared that name, else the default of the client or of the
peer port, else nothing, so its names are the two named ones and the user-declared ones;
likewise `transformWorkerPorts` with the rpc and exporter ports. A Go map holds a name
once. -/
theorem transformPorts_user_over_defaults (c : Consts)
    (runtime : datav1alpha1.VineyardRuntime)
    (hmaster : GoMap.WF runtime.Spec.Master.Ports)
    (hworker : GoMap.WF runtime.Spec.Worker.Ports) :
    (∀ k, GoMap.get (transformMasterPorts c runtime) k =
      match GoMap.get runtime.Spec.Master.Ports k with
      | some v => some v
      | none =>
        if k = c.MasterClientName then some c.MasterClientPort
        else if k = c.MasterPeerName then some c.MasterPeerPort else none) ∧
    (∀ k, (GoMap.get (transformMasterPorts c runtime) k).isSome = true ↔
      (k = c.MasterClientName ∨ k = c.MasterPeerName ∨
        (GoMap.get runtime.Spec.Master.Ports k).isSome = true)) ∧
    (∀ k, GoMap.get (transformWorkerPorts c runtime) k =
      match GoMap.get runtime.Spec.Worker.Ports k with
      | some v => some v
      | none =>
        if k = c.WorkerRPCName then some c.WorkerRPCPort
        else if k = c.WorkerExporterName then some c.WorkerExporterPort else none) ∧
    (∀ k, (GoMap.get (transformWorkerPorts c runtime) k).isSome = true ↔
      (k = c.WorkerRPCName ∨ k = c.WorkerExporterName ∨
        (GoMap.get runtime.Spec.Worker.Ports k).isSome = true)) := by
  have hm : ∀ k, GoMap.get (transformMasterPorts c runtime) k =
      match GoMap.get runtime.Spec.Master.Ports k with
      | some v => some v
      | none =>
        if k = c.MasterClientName then some c.MasterClientPort
        else if k = c.MasterPeerName then some c.MasterPeerPort else none := by
    intro k
    unfold transformMasterPorts
    simp only []
    rw [GoMap.get_overlay _ _ _ hmaster, GoMap.get_pair]
    cases GoMap.get runtime.Spec.Master.Ports k <;> rfl
  have hw : ∀ k, GoMap.get (transformWorkerPorts c runtime) k =
      match GoMap.get runtime.Spec.Worker.Ports k with
      | some v => some v
      | none =>
        if k = c.WorkerRPCName then some c.WorkerRPCPort
        else if k = c.WorkerExporterName then some c.WorkerExporterPort else none := by
    intro k
    unfold transformWorkerPorts
    simp only []
    rw [GoMap.get_overlay _ _ _ hworker, GoMap.get_pair]
    cases GoMap.get runtime.Spec.Worker.Ports k <;> rfl
  refine ⟨hm, ?_, hw, ?_⟩
  · intro k
    rw [hm k]
    cases GoMap.get runtime.Spec.Master.Ports k with
    | some v => simp
    | none =>
      simp only []
      split_ifs <;> simp [*]
  · intro k
    rw [hw k]
    cases GoMap.get runtime.Spec.Worker.Ports k with
    | some v => simp
    | none =>
      simp only []
      split_ifs <;> simp [*]

/-- Witness of C13: the user runtime declares the master ports client and metrics and
the worker port exporter. -/
theorem transformPorts_user_over_defaults_witness :
    GoMap.get (transformMasterPorts sampleConsts userRuntime) "client" = some 3000 ∧
    GoMap.get (transformMasterPorts sampleConsts userRuntime) "peer" = some 2380 ∧
    GoMap.get (transformMasterPorts sampleConsts userRuntime) "metrics" = some 4000 ∧
    GoMap.get (transformMasterPorts sampleConsts userRuntime) "other" = none ∧
    GoMap.get (transformWorkerPorts sampleConsts userRuntime) "rpc" = some 9600 ∧
    GoMap.get (transformWorkerPorts sampleConsts userRuntime) "exporter" = some 5000 :=
  have h := transformPorts_user_over_defaults sampleConsts userRuntime
    (by unfold GoMap.WF; decide) (by unfold GoMap.WF; decide)
  ⟨h.1 "client", h.1 "peer", h.1 "metrics", h.1 "other", h.2.2.1 "rpc", h.2.2.1 "exporter"⟩

/-- Whatever the constants are, a user who supplies the reserve-memory option with the
value of its baseline gets a merged map that holds the default under that name. -/
theorem transformMasterOptions_default_supplied (c : Consts) :
    GoMap.get (defaultValueOptionRuntime c).Spec.Master.Options c.WorkerReserveMemory =
      some c.DefaultWorkerReserveMemoryValue ∧
    GoMap.get (transformMasterOptions c (defaultValueOptionRuntime c)) c.WorkerReserveMemory =
      some c.DefaultWorkerReserveMemoryValue := by
  constructor
  · simp [defaultValueOptionRuntime, GoMap.get, GoMap.entries]
  · have hlen : GoMap.len (defaultValueOptionRuntime c).Spec.Master.Options > 0 := by
      simp [defaultValueOptionRuntime, GoMap.len, GoMap.entries]
    have hput : GoMap.putAll
        [(c.WorkerReserveMemory, c.DefaultWorkerReserveMemoryValue),
          (c.WorkerEtcdPrefix, c.DefaultWorkerEtcdPrefixValue)]
        (defaultValueOptionRuntime c).Spec.Master.Options =
        GoMap.put [(c.WorkerReserveMemory, c.DefaultWorkerReserveMemoryValue),
          (c.WorkerEtcdPrefix, c.DefaultWorkerEtcdPrefixValue)]
          c.WorkerReserveMemory c.DefaultWorkerReserveMemoryValue := rfl
    unfold transformMasterOptions
    simp only [hlen, if_true]
    rw [hput, GoMap.get_put_same]

/-- C14, as stated, fails, whatever the names and defaults of the constants: the user
supplies the reserve-memory option, under the name the constants give it, with the
value of its baseline, and the merged map holds the default value under that name
although the user did supply the name. -/
theorem transformMasterOptions_default_counterexample :
    GoMap.get (defaultValueOptionRuntime sampleConsts).Spec.Master.Options
      sampleConsts.WorkerReserveMemory ≠ none ∧
    GoMap.get (transformMasterOptions sampleConsts (defaultValueOptionRuntime sampleConsts))
      sampleConsts.WorkerReserveMemory = some sampleConsts.DefaultWorkerReserveMemoryValue ∧
    ¬ (GoMap.get (transformMasterOptions sampleConsts (defaultValueOptionRuntime sampleConsts))
        sampleConsts.WorkerReserveMemory = some sampleConsts.DefaultWorkerReserveMemoryValue ↔
      GoMap.get (defaultValueOptionRuntime sampleConsts).Spec.Master.Options
        sampleConsts.WorkerReserveMemory = none) := by
  have h := transformMasterOptions_default_supplied sampleConsts
  have hsupplied : GoMap.get (defaultValueOptionRuntime sampleConsts).Spec.Master.Options
      sampleConsts.WorkerReserveMemory ≠ none := by
    rw [h.1]
    exact Option.some_ne_none _
  exact ⟨hsupplied, h.2, fun hiff => hsupplied (hiff.mp h.2)⟩

/-- C14, amended: the map of `transformMasterOptions` has both baseline names (reserve
memory, etcd prefix) and the map of `transformFuseOptions` all three (size, etcd
endpoint, etcd prefix); each holds every user-supplied option with the value of the
user, and a baseline name holds its default when the user did not supply that name and
the value of the user when they did, so it holds its default exactly when the user
supplied nothing under that name or the default itself. The baseline names of one map
are distinct constants of one map literal, and a Go map holds a name once. -/
theorem transformOptions_user_over_baseline (c : Consts) (e : VineyardEngine)
    (runtime : datav1alpha1.VineyardRuntime) (value : Vineyard)
    (hmaster : GoMap.WF runtime.Spec.Master.Options)
    (hfuse : GoMap.WF runtime.Spec.Fuse.Options)
    (hmk : c.WorkerReserveMemory ≠ c.WorkerEtcdPrefix)
    (hf1 : c.VineyarddSize ≠ c.EtcdEndpoint) (hf2 : c.VineyarddSize ≠ c.EtcdPrefix)
    (hf3 : c.EtcdEndpoint ≠ c.EtcdPrefix) :
    (BaselineEntry (transformMasterOptions c runtime) runtime.Spec.Master.Options
        c.WorkerReserveMemory c.DefaultWorkerReserveMemoryValue ∧
      BaselineEntry (transformMasterOptions c runtime) runtime.Spec.Master.Options
        c.WorkerEtcdPrefix c.DefaultWorkerEtcdPrefixValue ∧
      ∀ k v, GoMap.get runtime.Spec.Master.Options k = some v →
        GoMap.get (transformMasterOptions c runtime) k = some v) ∧
    (BaselineEntry (transformFuseOptions c e runtime value) runtime.Spec.Fuse.Options
        c.VineyarddSize c.DefaultSize ∧
      BaselineEntry (transformFuseOptions c e runtime value) runtime.Spec.Fuse.Options
        c.EtcdEndpoint (etcdEndpoint value.FullnameOverride e.namespace_
          (GoMap.getInt value.Master.Ports c.MasterClientName)) ∧
      BaselineEntry (transformFuseOptions c e runtime value) runtime.Spec.Fuse.Options
        c.EtcdPrefix c.DefaultEtcdPrefix ∧
      ∀ k v, GoMap.get runtime.Spec.Fuse.Options k = some v →
        GoMap.get (transformFuseOptions c e runtime value) k = some v) := by
  have hm : ∀ k, GoMap.get (transformMasterOptions c runtime) k =
      match GoMap.get runtime.Spec.Master.Options k with
      | some v => some v
      | none =>
        if k = c.WorkerReserveMemory then some c.DefaultWorkerReserveMemoryValue
        else if k = c.WorkerEtcdPrefix then some c.DefaultWorkerEtcdPrefixValue else none := by
    intro k
    unfold transformMasterOptions
    simp only []
    rw [GoMap.get_overlay _ _ _ hmaster, GoMap.get_pair]
    cases GoMap.get runtime.Spec.Master.Options k <;> rfl
  have hf : ∀ k, GoMap.get (transformFuseOptions c e runtime value) k =
      match GoMap.get runtime.Spec.Fuse.Options k with
      | some v => some v
      | none =>
        if k = c.VineyarddSize then some c.DefaultSize
        else if k = c.EtcdEndpoint then
          some (etcdEndpoint value.FullnameOverride e.namespace_
            (GoMap.getInt value.Master.Ports c.MasterClientName))
        else if k = c.EtcdPrefix then some c.DefaultEtcdPrefix else none := by
    intro k
    unfold transformFuseOptions
    simp only []
    rw [GoMap.get_overlay _ _ _ hfuse, GoMap.get_triple]
    cases GoMap.get runtime.Spec.Fuse.Options k <;> rfl
  refine ⟨⟨?_, ?_, ?_⟩, ⟨?_, ?_, ?_, ?_⟩⟩
  · apply baselineEntry_of_overlay
    rw [hm]; simp
  · apply baselineEntry_of_overlay
    rw [hm]; simp [Ne.symm hmk]
  · intro k v hk
    rw [hm, hk]
  · apply baselineEntry_of_overlay
    rw [hf]; simp
  · apply baselineEntry_of_overlay
    rw [hf]; simp [Ne.symm hf1]
  · apply baselineEntry_of_overlay
    rw [hf]; simp [Ne.symm hf2, Ne.symm hf3]
  · intro k v hk
    rw [hf, hk]

/-- Witness of C14: the user runtime overrides the etcd prefix of the master and the
size of the fuse and adds one option of its own to each. -/
theorem transformOptions_user_over_baseline_witness :
    GoMap.get (transformMasterOptions sampleConsts userRuntime) "vineyardd.reserve.memory" =
      some "true" ∧
    GoMap.get (transformMasterOptions sampleConsts userRuntime) "etcd.prefix" =
      some "/custom" ∧
    GoMap.get (transformMasterOptions sampleConsts userRuntime) "debug" = some "on" ∧
    GoMap.get (transformFuseOptions sampleConsts sampleEngine userRuntime {}) "size" =
      some "10Gi" ∧
    GoMap.get (transformFuseOptions sampleConsts sampleEngine userRuntime {}) "etcd_prefix" =
      some "/vineyard" :=
  have h := transformOptions_user_over_baseline sampleConsts sampleEngine userRuntime {}
    (by unfold GoMap.WF; decide) (by unfold GoMap.WF; decide)
    (by decide) (by decide) (by decide) (by decide)
  ⟨h.1.1.2.1 rfl, h.1.2.2 "etcd.prefix" "/custom" rfl, h.1.2.2 "debug" "on" rfl,
    h.2.2.2.2 "size" "10Gi" rfl, h.2.2.2.1.2.1 rfl⟩

/-- C15: the resolved fuse node selector holds the injected entry, whose name is the
fuse label name derived from the namespace and name of the runtime and the owner
dataset UID and whose value is "true", and it holds every fuse node-selector entry of
the user, the fuse spec declaring no node selector: the selector is the map of the
injected entry alone, after `transformFuse` and in every value a successful `transform`
returns. The fuse resource helper leaves the selector as `transformFuse` set it. -/
theorem transformFuse_nodeSelector (c : Consts) (e : VineyardEngine)
    (runtime : datav1alpha1.VineyardRuntime)
    (hres : ∀ v, (e.transformResourcesForFuse runtime v).Fuse.NodeSelector =
      v.Fuse.NodeSelector) :
    (∀ value,
      GoMap.get (transformFuse c e runtime value).Fuse.NodeSelector
        (e.GetFuseLabelName runtime.Namespace runtime.Name e.GetOwnerDatasetUID) =
          some "true" ∧
      (transformFuse c e runtime value).Fuse.NodeSelector =
        some [(e.GetFuseLabelName runtime.Namespace runtime.Name e.GetOwnerDatasetUID,
          "true")]) ∧
    (∀ r v, transform c e (some runtime) = .ok r → r.err = none → r.value = some v →
      GoMap.get v.Fuse.NodeSelector
        (e.GetFuseLabelName runtime.Namespace runtime.Name e.GetOwnerDatasetUID) =
          some "true" ∧
      v.Fuse.NodeSelector =
        some [(e.GetFuseLabelName runtime.Namespace runtime.Name e.GetOwnerDatasetUID,
          "true")]) := by
  have hfuse : ∀ value, (transformFuse c e runtime value).Fuse.NodeSelector =
      some [(e.GetFuseLabelName runtime.Namespace runtime.Name e.GetOwnerDatasetUID,
        "true")] := by
    intro value
    unfold transformFuse
    simp only [hres]
    split_ifs <;> rfl
  have hget : GoMap.get
      (some [(e.GetFuseLabelName runtime.Namespace runtime.Name e.GetOwnerDatasetUID, "true")])
      (e.GetFuseLabelName runtime.Namespace runtime.Name e.GetOwnerDatasetUID) =
        some "true" := by
    simp [GoMap.get, GoMap.entries]
  have hpod : ∀ value, (transformPodMetadata runtime value).Fuse.NodeSelector =
      value.Fuse.NodeSelector := fun _ => rfl
  refine ⟨fun value => ⟨by rw [hfuse]; exact hget, hfuse value⟩, ?_⟩
  intro r v hrun herr hv
  have hsel : v.Fuse.NodeSelector =
      some [(e.GetFuseLabelName runtime.Namespace runtime.Name e.GetOwnerDatasetUID,
        "true")] := by
    unfold transform at hrun
    simp only [] at hrun
    split at hrun
    · cases hrun; simp at herr
    · split at hrun
      · cases hrun; simp at herr
      · split at hrun
        · cases hrun; simp at herr
        · split at hrun
          · cases hrun; simp at herr
          · split at hrun
            · split at hrun
              · cases hrun
              · rename_i a halloc
                split at hrun
                · cases hrun; simp at herr
                · cases hrun
                  cases hv
                  show a.value.Fuse.NodeSelector = _
                  rw [allocatePorts_fuse c e _ runtime a halloc, hpod, hfuse]
            · cases hrun
              cases hv
              show (transformPodMetadata runtime _).Fuse.NodeSelector = _
              rw [hpod, hfuse]
  exact ⟨by rw [hsel]; exact hget, hsel⟩

/-- Witness of C15 on the sample runtime with master and worker in host network, whose
resolution goes through the port allocation. -/
theorem transformFuse_nodeSelector_witness :
    ∃ v calls, transform sampleConsts sampleEngine (some hostBothRuntime) =
        .ok ⟨some v, none, calls⟩ ∧
      GoMap.get v.Fuse.NodeSelector "fluid.io/f-default-vy-uid" = some "true" ∧
      v.Fuse.NodeSelector = some [("fluid.io/f-default-vy-uid", "true")] :=
  ⟨_, _, rfl,
    (transformFuse_nodeSelector sampleConsts sampleEngine hostBothRuntime (fun _ => rfl)).2
      _ _ rfl rfl rfl⟩

/-- C16: the host-network flag of the resolved master is the host-network reading of the
network mode the worker declares, whatever network mode the master declares, the
master volume helper leaving the flag as `transformMasters` set it. -/
theorem transformMasters_hostNetwork (c : Consts) (e : VineyardEngine)
    (runtime : datav1alpha1.VineyardRuntime) (dataset : Option datav1alpha1.Dataset)
    (value : Vineyard)
    (hvol : ∀ rt v, (e.transformMasterVolumes rt v).1.Master.HostNetwork =
      v.Master.HostNetwork) :
    ((transformMasters c e runtime dataset value).1.Master.HostNetwork = true ↔
      e.IsHostNetwork runtime.Spec.Worker.NetworkMode = true) ∧
    (∀ mode, (transformMasters c e
        { runtime with Spec := { runtime.Spec with
            Master := { runtime.Spec.Master with NetworkMode := mode } } }
        dataset value).1.Master.HostNetwork =
      (transformMasters c e runtime dataset value).1.Master.HostNetwork) := by
  have h : ∀ rt, (transformMasters c e rt dataset value).1.Master.HostNetwork =
      e.IsHostNetwork rt.Spec.Worker.NetworkMode := by
    intro rt
    unfold transformMasters
    simp only [hvol]
    split_ifs <;> rfl
  constructor
  · rw [h]
  · intro mode
    rw [h, h]

/-- Witness of C16: with the master in host network and the worker in container
network the flag of the master is false, and with both in host network it is true. -/
theorem transformMasters_hostNetwork_witness :
    ((transformMasters sampleConsts sampleEngine hostMasterRuntime none {}).1.Master.HostNetwork
      = true ↔
      sampleEngine.IsHostNetwork hostMasterRuntime.Spec.Worker.NetworkMode = true) ∧
    (transformMasters sampleConsts sampleEngine hostMasterRuntime none {}).1.Master.HostNetwork
      = false ∧
    (transformMasters sampleConsts sampleEngine hostBothRuntime none {}).1.Master.HostNetwork
      = true :=
  ⟨(transformMasters_hostNetwork sampleConsts sampleEngine hostMasterRuntime none {}
      (fun _ _ => rfl)).1, rfl, rfl⟩

/-! ## Lemmas on the port maps along the pipeline -/

theorem transformMasterPorts_eq_some (c : Consts) (runtime : datav1alpha1.VineyardRuntime) :
    ∃ l, transformMasterPorts c runtime = some l ∧ l ≠ [] := by
  unfold transformMasterPorts
  simp only []
  by_cases h : GoMap.len runtime.Spec.Master.Ports > 0
  · rw [if_pos h]
    exact ⟨_, rfl, GoMap.putAll_ne_nil _ _ (by simp)⟩
  · rw [if_neg h]
    exact ⟨_, rfl, by simp⟩

theorem transformWorkerPorts_eq_some (c : Consts) (runtime : datav1alpha1.VineyardRuntime) :
    ∃ l, transformWorkerPorts c runtime = some l ∧ l ≠ [] := by
  unfold transformWorkerPorts
  simp only []
  by_cases h : GoMap.len runtime.Spec.Worker.Ports > 0
  · rw [if_pos h]
    exact ⟨_, rfl, GoMap.putAll_ne_nil _ _ (by simp)⟩
  · rw [if_neg h]
    exact ⟨_, rfl, by simp⟩

theorem GoMap.len_ne_zero_of_some {V : Type} (m : GoMap V) (l : List (String × V))
    (h : m = some l) (hne : l ≠ []) : GoMap.len m ≠ 0 := by
  subst h
  simpa [GoMap.len, GoMap.entries] using hne

theorem transformMasters_ports (c : Consts) (e : VineyardEngine)
    (runtime : datav1alpha1.VineyardRuntime) (dataset : Option datav1alpha1.Dataset)
    (value : Vineyard)
    (hvol : ∀ v, (e.transformMasterVolumes runtime v).1.Master.Ports = v.Master.Ports) :
    (transformMasters c e runtime dataset value).1.Master.Ports =
      transformMasterPorts c runtime := by
  obtain ⟨l, hl, hne⟩ := transformMasterPorts_eq_some c runtime
  have hlen := GoMap.len_ne_zero_of_some _ l hl hne
  unfold transformMasters
  simp only [hvol, hlen, ne_eq, not_false_eq_true, if_true]

theorem transformWorkers_ports (c : Consts) (e : VineyardEngine)
    (runtime : datav1alpha1.VineyardRuntime) (value : Vineyard)
    (hkeep : KeepsPorts e runtime)
    (hok : (transformWorkers c e runtime value).2 = none) :
    (transformWorkers c e runtime value).1.Master.Ports = value.Master.Ports ∧
    (transformWorkers c e runtime value).1.Worker.Ports = transformWorkerPorts c runtime := by
  obtain ⟨_, hres, hwvol, _⟩ := hkeep
  obtain ⟨l, hl, hne⟩ := transformWorkerPorts_eq_some c runtime
  have hlen := GoMap.len_ne_zero_of_some _ l hl hne
  unfold transformWorkers at hok ⊢
  simp only [] at hok ⊢
  split at hok
  · simp at hok
  · rename_i hnone
    simp only [hnone, hlen, ne_eq, not_false_eq_true, if_true, (hwvol _).1, (hwvol _).2, hres]
    constructor
    · split_ifs <;> rfl
    · trivial

theorem transformFuse_ports (c : Consts) (e : VineyardEngine)
    (runtime : datav1alpha1.VineyardRuntime) (value : Vineyard)
    (hkeep : KeepsPorts e runtime) :
    (transformFuse c e runtime value).Master.Ports = value.Master.Ports ∧
    (transformFuse c e runtime value).Worker.Ports = value.Worker.Ports := by
  obtain ⟨_, _, _, hfuse⟩ := hkeep
  unfold transformFuse
  simp only [(hfuse _).1, (hfuse _).2]
  constructor <;> split_ifs <;> rfl

theorem transformPodMetadata_ports (runtime : datav1alpha1.VineyardRuntime) (value : Vineyard) :
    (transformPodMetadata runtime value).Master.Ports = value.Master.Ports ∧
    (transformPodMetadata runtime value).Worker.Ports = value.Worker.Ports :=
  ⟨rfl, rfl⟩

/-! ## Lemmas on the port allocation -/

theorem allocatePorts_of_failure (c : Consts) (e : VineyardEngine)
    (runtime : datav1alpha1.VineyardRuntime) (err : Error)
    (hfail : e.GetRuntimePortAllocator = .error err ∨
      ∃ allocator, e.GetRuntimePortAllocator = .ok allocator ∧
        (allocator.GetAvailablePorts
          (expectedMasterPortNum e runtime + expectedWorkerPortNum e runtime)).2 = some err)
    (value : Vineyard) :
    ∃ calls, allocatePorts c e value runtime = .ok ⟨value, some err, calls⟩ := by
  rcases hfail with h | ⟨allocator, ha, hp⟩
  · exact ⟨_, by unfold allocatePorts; simp only [h]; rfl⟩
  · refine ⟨[Call.GetRuntimePortAllocator, Call.GetAvailablePorts
      (expectedMasterPortNum e runtime + expectedWorkerPortNum e runtime)], ?_⟩
    unfold allocatePorts
    simp only [ha]
    split
    · rename_i heq
      rw [heq] at hp
      simp only [Option.some.injEq] at hp
      subst hp
      rfl
    · rename_i heq
      rw [heq] at hp
      simp at hp

theorem allocatePorts_result (c : Consts) (e : VineyardEngine)
    (runtime : datav1alpha1.VineyardRuntime) (value : Vineyard)
    (allocator : RuntimePortAllocator) (ports : List Int) (lm lw : List (String × Int))
    (ha : e.GetRuntimePortAllocator = .ok allocator)
    (hp : allocator.GetAvailablePorts
      (expectedMasterPortNum e runtime + expectedWorkerPortNum e runtime) = (ports, none))
    (hlen : expectedMasterPortNum e runtime + expectedWorkerPortNum e runtime ≤
      (ports.length : Int))
    (hm : value.Master.Ports = some lm) (hw : value.Worker.Ports = some lw) :
    ∃ r, allocatePorts c e value runtime = .ok r ∧ r.err = none ∧
      (r.value.Master.Ports = some lm ∨ ∃ a b, r.value.Master.Ports =
        some (GoMap.put (GoMap.put lm c.MasterClientName a) c.MasterPeerName b)) ∧
      (r.value.Worker.Ports = some lw ∨ ∃ a b, r.value.Worker.Ports =
        some (GoMap.put (GoMap.put lw c.WorkerRPCName a) c.WorkerExporterName b)) := by
  unfold expectedMasterPortNum expectedWorkerPortNum at hp hlen
  cases hM : e.IsHostNetwork runtime.Spec.Master.NetworkMode <;>
    cases hW : e.IsHostNetwork runtime.Spec.Worker.NetworkMode <;>
    simp only [hM, hW] at hp hlen <;> simp at hp hlen
  · have hrun : allocatePorts c e value runtime = .ok
        ⟨value, none, [Call.GetRuntimePortAllocator, Call.GetAvailablePorts 0]⟩ := by
      unfold allocatePorts
      simp [expectedMasterPortNum, expectedWorkerPortNum, hM, hW, ha, hp, pure, Except.pure,
        bind, Except.bind]
    exact ⟨_, hrun, rfl, Or.inl hm, Or.inl hw⟩
  · have h2 : 2 ≤ ports.length := by exact_mod_cast hlen
    obtain ⟨a, hget0⟩ := getElem?_of_lt_length ports 0 (by omega)
    obtain ⟨b, hget1⟩ := getElem?_of_lt_length ports 1 (by omega)
    have hassign := assignWorkerPorts_ok c value ports 0 a b lw hget0 hget1 hw
    have hrun : allocatePorts c e value runtime = .ok
        ⟨{ value with Worker := { value.Worker with
            Ports := some (GoMap.put (GoMap.put lw c.WorkerRPCName a) c.WorkerExporterName b) } },
          none, [Call.GetRuntimePortAllocator, Call.GetAvailablePorts 2]⟩ := by
      unfold allocatePorts
      simp [expectedMasterPortNum, expectedWorkerPortNum, hM, hW, ha, hp, hassign, pure,
        Except.pure, bind, Except.bind]
    exact ⟨_, hrun, rfl, Or.inl hm, Or.inr ⟨a, b, rfl⟩⟩
  · have h2 : 2 ≤ ports.length := by exact_mod_cast hlen
    obtain ⟨a, hget0⟩ := getElem?_of_lt_length ports 0 (by omega)
    obtain ⟨b, hget1⟩ := getElem?_of_lt_length ports 1 (by omega)
    have hassign := assignMasterPorts_ok c value ports 0 a b lm hget0 hget1 hm
    have hrun : allocatePorts c e value runtime = .ok
        ⟨{ value with Master := { value.Master with
            Ports := some (GoMap.put (GoMap.put lm c.MasterClientName a) c.MasterPeerName b) } },
          none, [Call.GetRuntimePortAllocator, Call.GetAvailablePorts 2]⟩ := by
      unfold allocatePorts
      simp [expectedMasterPortNum, expectedWorkerPortNum, hM, hW, ha, hp, hassign, pure,
        Except.pure, bind, Except.bind]
    exact ⟨_, hrun, rfl, Or.inr ⟨a, b, rfl⟩, Or.inl hw⟩
  · have h4 : 4 ≤ ports.length := by exact_mod_cast hlen
    obtain ⟨a, hget0⟩ := getElem?_of_lt_length ports 0 (by omega)
    obtain ⟨b, hget1⟩ := getElem?_of_lt_length ports 1 (by omega)
    obtain ⟨a2, hget2⟩ := getElem?_of_lt_length ports 2 (by omega)
    obtain ⟨b2, hget3⟩ := getElem?_of_lt_length ports 3 (by omega)
    have hassign := assignMasterPorts_ok c value ports 0 a b lm hget0 hget1 hm
    have hassign2 := assignWorkerPorts_ok c
      { value with Master := { value.Master with
          Ports := some (GoMap.put (GoMap.put lm c.MasterClientName a) c.MasterPeerName b) } }
      ports 2 a2 b2 lw hget2 hget3 hw
    have hrun : allocatePorts c e value runtime = .ok
        ⟨{ value with
            Master := { value.Master with
              Ports := some (GoMap.put (GoMap.put lm c.MasterClientName a) c.MasterPeerName b) }
            Worker := { value.Worker with
              Ports := some (GoMap.put (GoMap.put lw c.WorkerRPCName a2)
                c.WorkerExporterName b2) } },
          none, [Call.GetRuntimePortAllocator, Call.GetAvailablePorts 4]⟩ := by
      unfold allocatePorts
      simp [expectedMasterPortNum, expectedWorkerPortNum, hM, hW, ha, hp, hassign, hassign2,
        pure, Except.pure, bind, Except.bind]
    exact ⟨_, hrun, rfl, Or.inr ⟨a, b, rfl⟩, Or.inr ⟨a2, b2, rfl⟩⟩

theorem GoMap.get_put_put_other {V : Type} (l : List (String × V)) (k1 k2 k : String) (a b : V)
    (h1 : k ≠ k1) (h2 : k ≠ k2) :
    GoMap.get (some (GoMap.put (GoMap.put l k1 a) k2 b)) k = GoMap.get (some l) k := by
  rw [GoMap.get_put_other _ _ _ _ (Ne.symm h2), GoMap.get_put_other _ _ _ _ (Ne.symm h1)]

theorem GoMap.get_putAll_isSome {V : Type} (dst : List (String × V)) (src : GoMap V)
    (k : String) (h : (GoMap.get (some dst) k).isSome = true) :
    (GoMap.get (some (GoMap.putAll dst src)) k).isSome = true := by
  unfold GoMap.putAll
  generalize GoMap.entries src = l
  induction l generalizing dst with
  | nil => simpa using h
  | cons x xs ih =>
    rw [List.foldl_cons]
    apply ih
    by_cases hx : x.1 = k
    · rw [hx, GoMap.get_put_same]; rfl
    · rw [GoMap.get_put_other _ _ _ _ hx]; exact h

theorem transformMasterPorts_has_names (c : Consts) (runtime : datav1alpha1.VineyardRuntime) :
    (GoMap.get (transformMasterPorts c runtime) c.MasterClientName).isSome = true ∧
    (GoMap.get (transformMasterPorts c runtime) c.MasterPeerName).isSome = true := by
  have hlit : ∀ k, k = c.MasterClientName ∨ k = c.MasterPeerName →
      (GoMap.get (some [(c.MasterClientName, c.MasterClientPort),
        (c.MasterPeerName, c.MasterPeerPort)]) k).isSome = true := by
    intro k hk
    rw [GoMap.get_pair]
    rcases hk with hk | hk <;> split_ifs <;> simp_all
  unfold transformMasterPorts
  simp only []
  split_ifs
  · exact ⟨GoMap.get_putAll_isSome _ _ _ (hlit _ (Or.inl rfl)),
      GoMap.get_putAll_isSome _ _ _ (hlit _ (Or.inr rfl))⟩
  · exact ⟨hlit _ (Or.inl rfl), hlit _ (Or.inr rfl)⟩

theorem transformWorkerPorts_has_names (c : Consts) (runtime : datav1alpha1.VineyardRuntime) :
    (GoMap.get (transformWorkerPorts c runtime) c.WorkerRPCName).isSome = true ∧
    (GoMap.get (transformWorkerPorts c runtime) c.WorkerExporterName).isSome = true := by
  have hlit : ∀ k, k = c.WorkerRPCName ∨ k = c.WorkerExporterName →
      (GoMap.get (some [(c.WorkerRPCName, c.WorkerRPCPort),
        (c.WorkerExporterName, c.WorkerExporterPort)]) k).isSome = true := by
    intro k hk
    rw [GoMap.get_pair]
    rcases hk with hk | hk <;> split_ifs <;> simp_all
  unfold transformWorkerPorts
  simp only []
  split_ifs
  · exact ⟨GoMap.get_putAll_isSome _ _ _ (hlit _ (Or.inl rfl)),
      GoMap.get_putAll_isSome _ _ _ (hlit _ (Or.inr rfl))⟩
  · exact ⟨hlit _ (Or.inl rfl), hlit _ (Or.inr rfl)⟩

theorem transform_returns_of_ports (c : Consts) (e : VineyardEngine)
    (runtime : datav1alpha1.VineyardRuntime) (allocator : RuntimePortAllocator)
    (ports : List Int)
    (hkeep : KeepsPorts e runtime)
    (ha : e.GetRuntimePortAllocator = .ok allocator)
    (hp : allocator.GetAvailablePorts
      (expectedMasterPortNum e runtime + expectedWorkerPortNum e runtime) = (ports, none))
    (hlen : (ports.length : Int) =
      expectedMasterPortNum e runtime + expectedWorkerPortNum e runtime) :
    ∃ r, transform c e (some runtime) = .ok r := by
  unfold transform
  simp only []
  split
  · exact ⟨_, rfl⟩
  · split
    · exact ⟨_, rfl⟩
    · split
      · exact ⟨_, rfl⟩
      · split
        · exact ⟨_, rfl⟩
        · rename_i hwok
          split
          · obtain ⟨lm, hlm, _⟩ := transformMasterPorts_eq_some c runtime
            obtain ⟨lw, hlw, _⟩ := transformWorkerPorts_eq_some c runtime
            have hw := transformWorkers_ports c e runtime _ hkeep hwok
            obtain ⟨r, hrun, herr, _, _⟩ := allocatePorts_result c e runtime
              (transformPodMetadata runtime (transformFuse c e runtime
                (transformWorkers c e runtime (transformMasters c e runtime _ _).1).1))
              allocator ports lm lw ha hp (le_of_eq hlen.symm)
              (by rw [(transformPodMetadata_ports _ _).1,
                    (transformFuse_ports c e runtime _ hkeep).1, hw.1,
                    transformMasters_ports c e runtime _ _ hkeep.1, hlm])
              (by rw [(transformPodMetadata_ports _ _).2,
                    (transformFuse_ports c e runtime _ hkeep).2, hw.2, hlw])
            rw [hrun]
            simp only [herr]
            exact ⟨_, rfl⟩
          · exact ⟨_, rfl⟩

/-! ## Host network and port allocation: the claims -/

/-- C17: when neither the master nor the worker is in host network, `transform` returns
without a call of `allocatePorts`, of the allocator getter or of the port reservation,
and on success the master and worker port maps of the value are the results of
`transformMasterPorts` and `transformWorkerPorts`, the helpers of other files leaving
the port maps as they find them. -/
theorem transform_without_hostNetwork (c : Consts) (e : VineyardEngine)
    (runtime : datav1alpha1.VineyardRuntime)
    (hmaster : e.IsHostNetwork runtime.Spec.Master.NetworkMode = false)
    (hworker : e.IsHostNetwork runtime.Spec.Worker.NetworkMode = false) :
    ∃ r, transform c e (some runtime) = .ok r ∧
      Call.allocatePorts ∉ r.calls ∧ Call.GetRuntimePortAllocator ∉ r.calls ∧
      (∀ n, Call.GetAvailablePorts n ∉ r.calls) ∧
      (KeepsPorts e runtime → r.err = none →
        ∃ v, r.value = some v ∧ v.Master.Ports = transformMasterPorts c runtime ∧
          v.Worker.Ports = transformWorkerPorts c runtime) := by
  unfold transform
  simp only [hmaster, hworker, Bool.or_self, Bool.false_eq_true, if_false]
  split
  · exact ⟨_, rfl, by simp, by simp, by simp, fun _ h => by simp at h⟩
  · split
    · exact ⟨_, rfl, by simp, by simp, by simp, fun _ h => by simp at h⟩
    · split
      · exact ⟨_, rfl, by simp, by simp, by simp, fun _ h => by simp at h⟩
      · split
        · exact ⟨_, rfl, by simp, by simp, by simp, fun _ h => by simp at h⟩
        · rename_i hwok
          refine ⟨_, rfl, by simp, by simp, by simp, fun hkeep _ => ⟨_, rfl, ?_, ?_⟩⟩
          · show (transformPodMetadata runtime (transformFuse c e runtime _)).Master.Ports = _
            rw [(transformPodMetadata_ports _ _).1, (transformFuse_ports c e runtime _ hkeep).1,
              (transformWorkers_ports c e runtime _ hkeep hwok).1,
              transformMasters_ports c e runtime _ _ hkeep.1]
          · show (transformPodMetadata runtime (transformFuse c e runtime _)).Worker.Ports = _
            rw [(transformPodMetadata_ports _ _).2, (transformFuse_ports c e runtime _ hkeep).2,
              (transformWorkers_ports c e runtime _ hkeep hwok).2]

/-- Witness of C17 on the sample runtime, whose components are in container network. -/
theorem transform_without_hostNetwork_witness :
    ∃ r, transform sampleConsts sampleEngine (some sampleRuntime) = .ok r ∧
      Call.allocatePorts ∉ r.calls ∧ Call.GetRuntimePortAllocator ∉ r.calls ∧
      (∀ n, Call.GetAvailablePorts n ∉ r.calls) ∧
      (KeepsPorts sampleEngine sampleRuntime → r.err = none →
        ∃ v, r.value = some v ∧ v.Master.Ports = transformMasterPorts sampleConsts sampleRuntime ∧
          v.Worker.Ports = transformWorkerPorts sampleConsts sampleRuntime) :=
  transform_without_hostNetwork sampleConsts sampleEngine sampleRuntime rfl rfl

/-- C18: when the allocator cannot be obtained, or its reservation of the requested
number of ports fails, `allocatePorts` returns that error and the value it was given,
unchanged; `transform` returns, and whenever it has called `allocatePorts` its error is
that error, which is the case when the earlier steps succeed and the master or the
worker is in host network. -/
theorem allocatePorts_failure_unchanged (c : Consts) (e : VineyardEngine)
    (runtime : datav1alpha1.VineyardRuntime) (err : Error)
    (hfail : e.GetRuntimePortAllocator = .error err ∨
      ∃ allocator, e.GetRuntimePortAllocator = .ok allocator ∧
        (allocator.GetAvailablePorts
          (expectedMasterPortNum e runtime + expectedWorkerPortNum e runtime)).2 = some err) :
    (∀ value, ∃ calls, allocatePorts c e value runtime = .ok ⟨value, some err, calls⟩) ∧
    (∃ r, transform c e (some runtime) = .ok r ∧
      (Call.allocatePorts ∈ r.calls → r.err = some err)) ∧
    (e.GetDataset.2 = none → runtime.Spec.TieredStore.Levels ≠ [] →
      (∀ v, (e.transformMasterVolumes runtime v).2 = none) →
      (∀ v, (e.transformResourcesForWorker runtime v).2 = none) →
      (∀ v, (e.transformWorkerVolumes runtime v).2 = none) →
      (e.IsHostNetwork runtime.Spec.Master.NetworkMode ||
        e.IsHostNetwork runtime.Spec.Worker.NetworkMode) = true →
      ∃ v calls, transform c e (some runtime) = .ok ⟨some v, some err, calls⟩ ∧
        Call.allocatePorts ∈ calls) := by
  have halloc := allocatePorts_of_failure c e runtime err hfail
  refine ⟨halloc, ?_, ?_⟩
  · unfold transform
    simp only []
    split
    · exact ⟨_, rfl, fun h => by simp at h⟩
    · split
      · exact ⟨_, rfl, fun h => by simp at h⟩
      · split
        · exact ⟨_, rfl, fun h => by simp at h⟩
        · split
          · exact ⟨_, rfl, fun h => by simp at h⟩
          · split
            · obtain ⟨calls, hcalls⟩ := halloc
                (transformPodMetadata runtime (transformFuse c e runtime
                  (transformWorkers c e runtime
                    (transformMasters c e runtime _ _).1).1))
              rw [hcalls]
              exact ⟨_, rfl, fun _ => rfl⟩
            · exact ⟨_, rfl, fun h => by simp at h⟩
  · intro hd ht hmv hrw hwv hhost
    rcases hds : e.GetDataset with ⟨ds, derr⟩
    rw [hds] at hd
    simp only at hd
    subst hd
    have hts := transformTieredStore_of_ne_nil runtime ht
    have hm : ∀ dataset value, (transformMasters c e runtime dataset value).2 = none :=
      fun _ _ => hmv _
    have hw : ∀ value, (transformWorkers c e runtime value).2 = none := by
      intro value
      unfold transformWorkers
      simp only [hrw]
      exact hwv _
    obtain ⟨calls, hcalls⟩ := halloc
      (transformPodMetadata runtime (transformFuse c e runtime
        (transformWorkers c e runtime
          (transformMasters c e runtime ds
            { Owner := e.GenerateOwnerReferenceFromObject runtime
              FullnameOverride := e.name
              OwnerDatasetId := e.GetDatasetId e.namespace_ e.name e.GetOwnerDatasetUID
              TieredStore := { Levels := runtime.Spec.TieredStore.Levels.map resolvedLevel } }).1).1))
    unfold transform
    simp only [hds, hts, hm, hw, hhost, if_true]
    rw [hcalls]
    exact ⟨_, _, rfl, by simp⟩

/-- Witness of C18: without an allocator, and with a pool that has no port left, the
resolution of a host-network runtime ends in the error of the allocation. -/
theorem allocatePorts_failure_unchanged_witness :
    (∃ v calls, transform sampleConsts noAllocatorEngine (some hostBothRuntime) =
        .ok ⟨some v, some "runtime port allocator not setup", calls⟩ ∧
      Call.allocatePorts ∈ calls) ∧
    (∃ calls, allocatePorts sampleConsts exhaustedPoolEngine
        (portsValue sampleConsts hostMasterRuntime) hostMasterRuntime =
      .ok ⟨portsValue sampleConsts hostMasterRuntime, some "no available port", calls⟩) :=
  ⟨(allocatePorts_failure_unchanged sampleConsts noAllocatorEngine hostBothRuntime
      "runtime port allocator not setup" (Or.inl rfl)).2.2 rfl (by decide)
      (fun _ => rfl) (fun _ => rfl) (fun _ => rfl) rfl,
   (allocatePorts_failure_unchanged sampleConsts exhaustedPoolEngine hostMasterRuntime
      "no available port" (Or.inr ⟨_, rfl, rfl⟩)).1 _⟩

/-- C20: on the value that `transformMasters` and then `transformWorkers` produce, both
port maps are set and hold both of their named ports; when the allocator returns as
many ports as requested, `allocatePorts` returns without a panic (no index is out of
range, no write goes to a nil map) and without an error, every port entry under
another name than the two named ones of its role is what it was, and `transform`
itself returns; the helpers of other files leave the port maps as they find them. -/
theorem allocatePorts_never_panics (c : Consts) (e : VineyardEngine)
    (runtime : datav1alpha1.VineyardRuntime) (dataset : Option datav1alpha1.Dataset)
    (initial : Vineyard) (allocator : RuntimePortAllocator) (ports : List Int)
    (hkeep : KeepsPorts e runtime)
    (hworkers : (transformWorkers c e runtime
      (transformMasters c e runtime dataset initial).1).2 = none)
    (ha : e.GetRuntimePortAllocator = .ok allocator)
    (hp : allocator.GetAvailablePorts
      (expectedMasterPortNum e runtime + expectedWorkerPortNum e runtime) = (ports, none))
    (hlen : (ports.length : Int) =
      expectedMasterPortNum e runtime + expectedWorkerPortNum e runtime) :
    ∃ value, value = (transformWorkers c e runtime
        (transformMasters c e runtime dataset initial).1).1 ∧
      value.Master.Ports ≠ none ∧ value.Worker.Ports ≠ none ∧
      (GoMap.get value.Master.Ports c.MasterClientName).isSome = true ∧
      (GoMap.get value.Master.Ports c.MasterPeerName).isSome = true ∧
      (GoMap.get value.Worker.Ports c.WorkerRPCName).isSome = true ∧
      (GoMap.get value.Worker.Ports c.WorkerExporterName).isSome = true ∧
      ∃ r, allocatePorts c e value runtime = .ok r ∧ r.err = none ∧
        (∀ k, k ≠ c.MasterClientName → k ≠ c.MasterPeerName →
          GoMap.get r.value.Master.Ports k = GoMap.get value.Master.Ports k) ∧
        (∀ k, k ≠ c.WorkerRPCName → k ≠ c.WorkerExporterName →
          GoMap.get r.value.Worker.Ports k = GoMap.get value.Worker.Ports k) ∧
        ∃ t, transform c e (some runtime) = .ok t := by
  have hreturns := transform_returns_of_ports c e runtime allocator ports hkeep ha hp hlen
  refine ⟨_, rfl, ?_⟩
  have hw := transformWorkers_ports c e runtime _ hkeep hworkers
  have hmp := transformMasters_ports c e runtime dataset initial hkeep.1
  have hM : (transformWorkers c e runtime
      (transformMasters c e runtime dataset initial).1).1.Master.Ports =
      transformMasterPorts c runtime := hw.1.trans hmp
  have hW := hw.2
  obtain ⟨lm, hlm, _⟩ := transformMasterPorts_eq_some c runtime
  obtain ⟨lw, hlw, _⟩ := transformWorkerPorts_eq_some c runtime
  obtain ⟨r, hrun, herr, hrm, hrw⟩ := allocatePorts_result c e runtime _ allocator ports lm lw
    ha hp (le_of_eq hlen.symm) (hM.trans hlm) (hW.trans hlw)
  refine ⟨by rw [hM, hlm]; simp, by rw [hW, hlw]; simp, ?_, ?_, ?_, ?_, r, hrun, herr, ?_, ?_, hreturns⟩
  · rw [hM]; exact (transformMasterPorts_has_names c runtime).1
  · rw [hM]; exact (transformMasterPorts_has_names c runtime).2
  · rw [hW]; exact (transformWorkerPorts_has_names c runtime).1
  · rw [hW]; exact (transformWorkerPorts_has_names c runtime).2
  · intro k h1 h2
    rw [hM, hlm]
    rcases hrm with h | ⟨a, b, h⟩
    · rw [h]
    · rw [h, GoMap.get_put_put_other _ _ _ _ _ _ h1 h2]
  · intro k h1 h2
    rw [hW, hlw]
    rcases hrw with h | ⟨a, b, h⟩
    · rw [h]
    · rw [h, GoMap.get_put_put_other _ _ _ _ _ _ h1 h2]

/-- Witness of C20 on the sample runtime with master and worker in host network. -/
theorem allocatePorts_never_panics_witness :
    ∃ r, allocatePorts sampleConsts sampleEngine
        (transformWorkers sampleConsts sampleEngine hostBothRuntime
          (transformMasters sampleConsts sampleEngine hostBothRuntime none {}).1).1
        hostBothRuntime = .ok r ∧ r.err = none := by
  obtain ⟨value, hvalue, _, _, _, _, _, _, r, hrun, herr, _⟩ :=
    allocatePorts_never_panics sampleConsts sampleEngine hostBothRuntime none {} samplePool
      [20000, 20001, 20002, 20003]
      ⟨fun _ => rfl, fun _ => rfl, fun _ => ⟨rfl, rfl⟩, fun _ => ⟨rfl, rfl⟩⟩
      rfl rfl rfl rfl
  subst hvalue
  exact ⟨r, hrun, herr⟩

end Fluid
